import Mathlib

/-!
Shallow embedding of the storage-layout tool (disk / partition / LUKS / LVM /
ZFS lifecycle orchestrator) and proofs about its specification.

External effects are modelled explicitly: every external tool invocation is
recorded in a trace, and the read-only answers of the external namespace
(device-mapper status, pool visibility, command exit status) are supplied by a
static `World` oracle.  Fallible Rust functions return `Res`; `unwrap` on an
absent value is modelled by the distinguished outcome `Res.panic`.
-/

namespace NixosSetup

/-- Error values (`error.rs`), restricted to the constructors the modelled
code can produce: a failed external command tagged with the command name, and
a generic error with its description string. -/
inductive Error where
  | command : String → Error
  | generic : String → Error
deriving DecidableEq, Repr

/-- One external invocation: program name, argument list, optional stdin
payload (`utils::command_output` passes no stdin, `utils::spawn_command`
may pipe a passphrase). -/
structure Cmd where
  name : String
  args : List String
  stdin : Option String
deriving DecidableEq, Repr

/-- Static oracle for the external world during one operation.

* `luksActive lbl`: `cryptsetup status /dev/mapper/<lbl>` succeeds and its
  stdout contains `is active` (merging the exit status and the output scan
  of `luks::is_opened`).
* `poolExists name`: `zpool list <name>` exits zero, queried after
  `zpool import -a` (the only point the code consults it).
* `cmdFails c`: the invocation `c` exits nonzero (or fails to spawn). -/
structure World where
  luksActive : String → Bool
  poolExists : String → Bool
  cmdFails : Cmd → Bool

/-- Outcome of a fallible Rust computation: `ok`, an `Err` propagated by `?`,
or a panic (`unwrap` on `None`). -/
inductive Res (α : Type) where
  | ok : α → Res α
  | err : Error → Res α
  | panic : Res α
deriving DecidableEq, Repr

/-- A computation's outcome together with the trace of external invocations
it issued (in order). -/
abbrev Run (α : Type) : Type := Res α × List Cmd

def Run.pure (a : α) : Run α := (Res.ok a, [])

/-- Sequencing with `?`-propagation: on `err` or `panic` the continuation is
not run and the trace so far is kept. -/
def Run.bind (x : Run α) (f : α → Run β) : Run β :=
  match x with
  | (Res.ok a, t) =>
    match f a with
    | (r, t2) => (r, t ++ t2)
  | (Res.err e, t) => (Res.err e, t)
  | (Res.panic, t) => (Res.panic, t)

def Run.trace (x : Run α) : List Cmd := x.2

def Run.res (x : Run α) : Res α := x.1

/-- Prepend a trace to a computation (unchanged outcome). -/
def Run.withTrace (t : List Cmd) (x : Run α) : Run α := (x.1, t ++ x.2)

/-- `utils::command_output` / `utils::spawn_command`: issue the invocation,
fail with a command error when the oracle says it exits nonzero. -/
def runCmd (w : World) (c : Cmd) : Run Unit :=
  (if w.cmdFails c then Res.err (Error.command c.name) else Res.ok (), [c])

-- ---------------------------------------------------------------------------
-- gpt.rs: size model, partition/filesystem type tags, gpt-level commands
-- ---------------------------------------------------------------------------

/-- `gpt::SizeUnit`. -/
inductive SizeUnit where
  | byte | kilo | mega | giga | tera | peta
deriving DecidableEq, Repr

def SizeUnit.toString : SizeUnit → String
  | .byte => ""
  | .kilo => "K"
  | .mega => "M"
  | .giga => "G"
  | .tera => "T"
  | .peta => "P"

/-- `gpt::Bytesize`. -/
structure Bytesize where
  unit : SizeUnit
  value : Nat
deriving DecidableEq, Repr

def Bytesize.is_null (b : Bytesize) : Bool := b.value == 0

def Bytesize.toString (b : Bytesize) : String :=
  match b.value with
  | 0 => "0"
  | _ => Nat.repr b.value ++ b.unit.toString

def Bytesize.to_gpt_string (b : Bytesize) : String :=
  match b.value with
  | 0 => "0"
  | _ => "+" ++ b.toString

/-- `gpt::PartitionType`. -/
inductive PartitionType where
  | efi
  | linux
deriving DecidableEq, Repr

def PartitionType.to_gpt_string : PartitionType → String
  | .efi => "ef00"
  | .linux => "8300"

def PartitionType.from_str (input : String) : Except Error PartitionType :=
  if input = "efi" ∨ input = "ef00" then .ok .efi
  else if input = "linux" ∨ input = "8300" then .ok .linux
  else .error (Error.generic "Invalid partition type")

/-- `gpt::FsType`. -/
inductive FsType where
  | ext4 | fat32 | zfs | lvm | swap
deriving DecidableEq, Repr

def FsType.from_str (input : String) : Except Error FsType :=
  if input = "ext4" then .ok .ext4
  else if input = "fat32" then .ok .fat32
  else if input = "zfs" then .ok .zfs
  else if input = "lvm" then .ok .lvm
  else if input = "swap" then .ok .swap
  else .error (Error.generic ("Invalid enum value " ++ input))

-- ---------------------------------------------------------------------------
-- luks.rs: block-encryption commands
-- ---------------------------------------------------------------------------

namespace luks

/-- `luks::format`: `cryptsetup luksFormat` with the passphrase on stdin. -/
def format (w : World) (device passphrase : String) : Run Unit :=
  runCmd w
    (Cmd.mk "cryptsetup"
      ["luksFormat", "-c", "aes-xts-plain64", "-s", "256", "-h", "sha512",
       "--type", "luks1", "-q", device, "-"]
      (some passphrase))

/-- `luks::add_key`: `cryptsetup luksAddKey`. -/
def add_key (w : World) (device passphrase key_file : String) : Run Unit :=
  runCmd w
    (Cmd.mk "cryptsetup" ["luksAddKey", device, key_file, "-"]
      (some passphrase))

/-- `luks::is_opened`: query `cryptsetup status /dev/mapper/<label>`; the
oracle's `luksActive` folds the exit status and the `is active` scan. -/
def is_opened (w : World) (label : String) : Run Bool :=
  (Res.ok (w.luksActive label),
   [Cmd.mk "cryptsetup" ["status", "/dev/mapper/" ++ label] none])

/-- `luks::open`: no-op when the device-mapper status already reports the
mapping active, otherwise `cryptsetup luksOpen`. -/
def open' (w : World) (device passphrase label : String) : Run Unit :=
  Run.bind (is_opened w label) (fun o =>
    if o then Run.pure ()
    else runCmd w
      (Cmd.mk "cryptsetup" ["luksOpen", device, label, "-"]
        (some passphrase)))

/-- `luks::close`: `cryptsetup luksClose /dev/mapper/<label>`. -/
def close (w : World) (label : String) : Run Unit :=
  runCmd w
    (Cmd.mk "cryptsetup" ["luksClose", "/dev/mapper/" ++ label] none)

end luks

-- ---------------------------------------------------------------------------
-- zfs.rs: pool-level commands
-- ---------------------------------------------------------------------------

/-- `zfs::pool_import_all`: `zpool import -a`. -/
def zfs.pool_import_all (w : World) : Run Unit :=
  runCmd w (Cmd.mk "zpool" ["import", "-a"] none)

/-- `zfs::pool_export_all`: `zpool export -a`. -/
def zfs.pool_export_all (w : World) : Run Unit :=
  runCmd w (Cmd.mk "zpool" ["export", "-a"] none)

/-- `zfs::pool_exists`: `zpool list <name>`, true iff the command succeeds;
the oracle's `poolExists` answers for the post-import namespace. -/
def zfs.pool_exists (w : World) (name : String) : Run Bool :=
  (Res.ok (w.poolExists name), [Cmd.mk "zpool" ["list", name] none])

/-- `zfs::pool_add`: `zpool add -f <name> <device>`. -/
def zfs.pool_add (w : World) (name device : String) : Run Unit :=
  runCmd w (Cmd.mk "zpool" ["add", "-f", name, device] none)

/-- `zfs::pool_create`: import all pools, then either extend the existing
pool of that name or export everything and create a fresh pool. -/
def zfs.pool_create (w : World) (name device : String) : Run Unit :=
  Run.bind (zfs.pool_import_all w) (fun _ =>
  Run.bind (zfs.pool_exists w name) (fun b =>
  if b then zfs.pool_add w name device
  else
    Run.bind (zfs.pool_export_all w) (fun _ =>
    runCmd w
      (Cmd.mk "zpool"
        ["create", "-o", "ashift=12", "-O", "compression=lz4", "-m", "none",
         name, device]
        none))))

/-- `zfs::zfs_create`: `zfs create <pool>/<name> -o mountpoint=legacy`. -/
def zfs.zfs_create (w : World) (pool name : String) : Run Unit :=
  runCmd w
    (Cmd.mk "zfs" ["create", pool ++ "/" ++ name, "-o", "mountpoint=legacy"]
      none)

-- ---------------------------------------------------------------------------
-- gpt.rs: gpt-level commands
-- ---------------------------------------------------------------------------

namespace gpt

/-- `gpt::wipeout`: `sgdisk -Z <device>`. -/
def wipeout (w : World) (device : String) : Run Unit :=
  runCmd w (Cmd.mk "sgdisk" ["-Z", device] none)

/-- `gpt::create_partition` (the settle sleep has no observable effect in
this model). -/
def create_partition (w : World) (device : String) (size : Bytesize)
    (partition_type : PartitionType) (label : String) : Run Unit :=
  runCmd w
    (Cmd.mk "sgdisk"
      ["-n", "0:0:" ++ size.to_gpt_string,
       "-t", "0:" ++ partition_type.to_gpt_string,
       "-c", "0:" ++ label,
       device]
      none)

/-- `gpt::format_fat32`. -/
def format_fat32 (w : World) (device label : String) : Run Unit :=
  runCmd w (Cmd.mk "mkfs.fat" ["-F", "32", "-n", label, device] none)

/-- `gpt::format_ext4`. -/
def format_ext4 (w : World) (device label : String) : Run Unit :=
  runCmd w (Cmd.mk "mkfs.ext4" ["-L", label, device] none)

/-- `gpt::format_zfs`: create/extend the pool named after the label. -/
def format_zfs (w : World) (device label : String) : Run Unit :=
  zfs.pool_create w label device

/-- `gpt::format_swap`. -/
def format_swap (w : World) (device label : String) : Run Unit :=
  runCmd w (Cmd.mk "mkswap" ["-L", label, device] none)

/-- `gpt::format_partition`: dispatch on the filesystem-type tag; `Lvm`
falls through to the generic format error. -/
def format_partition (w : World) (device fmt label : String) : Run Unit :=
  match FsType.from_str fmt with
  | .error e => (Res.err e, [])
  | .ok ft =>
    match ft with
    | .fat32 => format_fat32 w device label
    | .ext4 => format_ext4 w device label
    | .zfs => format_zfs w device label
    | .swap => format_swap w device label
    | .lvm => (Res.err (Error.generic "Invalid partition format"), [])

end gpt

-- ---------------------------------------------------------------------------
-- lvm.rs: volume-group / logical-volume model
-- ---------------------------------------------------------------------------

/-- `lvm::Config` (one logical volume's configuration). -/
structure lvm.Config where
  id : Nat
  size : Bytesize
  volume_type : String
  encrypted : Bool
  fs_type : String
  label : String
  is_root : Bool
  device : Option String
deriving DecidableEq, Repr

/-- `lvm::Volume`. -/
structure Volume where
  config : NixosSetup.lvm.Config
  mounted : Bool
deriving DecidableEq, Repr

def Volume.from_config (config : lvm.Config) : Volume :=
  { config := config, mounted := false }

def Volume.config' (v : Volume) : Except Error lvm.Config := .ok v.config

/-- `lvm::Volume::create`: `lvcreate` with a fixed size or `100%FREE`, then
record the resolved device path `/dev/vg-<partition_label>/<label>`. -/
def Volume.create (w : World) (v : Volume) (partition_label : String) :
    Run Volume :=
  let opt_size := if v.config.size.is_null then "-l" else "-L"
  let size := if v.config.size.is_null then "100%FREE"
              else v.config.size.toString
  let vg := "vg-" ++ partition_label
  Run.bind
    (runCmd w (Cmd.mk "lvcreate" [opt_size, size, "-n", v.config.label, vg]
      none))
    (fun _ => Run.pure
      { v with config :=
          { v.config with
              device := some ("/dev/" ++ vg ++ "/" ++ v.config.label) } })

/-- `lvm::Volume::format`. -/
def Volume.format (w : World) (v : Volume) : Run Unit :=
  match v.config.device with
  | none => (Res.err (Error.generic "No volume device"), [])
  | some d => gpt.format_partition w d v.config.fs_type v.config.label

/-- `lvm::Volume::mount`. -/
def Volume.mount (w : World) (v : Volume) (mountpoint : String) : Run Volume :=
  if v.mounted then Run.pure v
  else match v.config.device with
  | none => (Res.err (Error.generic "No device for volume"), [])
  | some device =>
    Run.bind (runCmd w (Cmd.mk "mount" [device, mountpoint] none)) (fun _ =>
    Run.pure { v with mounted := true })

/-- `lvm::Volume::unmount`. -/
def Volume.unmount (w : World) (v : Volume) : Run Volume :=
  if !v.mounted then Run.pure v
  else match v.config.device with
  | none => (Res.err (Error.generic "No device for volume"), [])
  | some device =>
    Run.bind (runCmd w (Cmd.mk "umount" [device] none)) (fun _ =>
    Run.pure { v with mounted := false })

/-- `lvm::Lvm`. -/
structure Lvm where
  opened : Bool
  partition_label : String
  volumes : List Volume
deriving DecidableEq, Repr

def Lvm.from_config (lvms : List lvm.Config) (partition_label : String) :
    Lvm :=
  { opened := false,
    partition_label := partition_label,
    volumes := lvms.map Volume.from_config }

def Lvm.configList : List Volume → Except Error (List lvm.Config)
  | [] => .ok []
  | v :: rest =>
    match v.config' with
    | .error e => .error e
    | .ok c =>
      match Lvm.configList rest with
      | .error e => .error e
      | .ok cs => .ok (c :: cs)

def Lvm.config' (l : Lvm) : Except Error (List lvm.Config) :=
  Lvm.configList l.volumes

/-- `impl Validate for Lvm`. -/
def Lvm.is_valid (l : Lvm) : Bool := !l.volumes.isEmpty

/-- `lvm::Lvm::pv_create`. -/
def Lvm.pv_create (w : World) (_l : Lvm) (device : String) : Run Unit :=
  runCmd w (Cmd.mk "pvcreate" ["-y", "-ff", device] none)

/-- `lvm::Lvm::vg_create`. -/
def Lvm.vg_create (w : World) (_l : Lvm) (device label : String) : Run Unit :=
  runCmd w (Cmd.mk "vgcreate" ["vg-" ++ label, device] none)

def Lvm.volumesCreate (w : World) (partition_label : String) :
    List Volume → Run (List Volume)
  | [] => Run.pure []
  | v :: rest =>
    Run.bind (v.create w partition_label) (fun v' =>
    Run.bind (Lvm.volumesCreate w partition_label rest) (fun rest' =>
    Run.pure (v' :: rest')))

/-- `lvm::Lvm::create`. -/
def Lvm.create (w : World) (l : Lvm) (device label : String) : Run Lvm :=
  if !l.is_valid then Run.pure l
  else
    Run.bind (l.pv_create w device) (fun _ =>
    Run.bind (l.vg_create w device label) (fun _ =>
    Run.bind (Lvm.volumesCreate w label l.volumes) (fun vs =>
    Run.pure { l with volumes := vs, opened := true })))

def Lvm.formatVolumesList (w : World) : List Volume → Run Unit
  | [] => Run.pure ()
  | v :: rest =>
    Run.bind (v.format w) (fun _ => Lvm.formatVolumesList w rest)

/-- `lvm::Lvm::format_volumes`. -/
def Lvm.format_volumes (w : World) (l : Lvm) : Run Unit :=
  Lvm.formatVolumesList w l.volumes

/-- `impl Openable for Lvm`, open side: `vgchange -a y vg-<label>`. -/
def Lvm.open' (w : World) (l : Lvm) (_passphrase : String) : Run Lvm :=
  if l.opened then Run.pure l
  else
    Run.bind
      (runCmd w
        (Cmd.mk "vgchange" ["-a", "y", "vg-" ++ l.partition_label] none))
      (fun _ => Run.pure { l with opened := true })

/-- `impl Openable for Lvm`, close side: `vgchange -a n vg-<label>`. -/
def Lvm.close (w : World) (l : Lvm) : Run Lvm :=
  if !l.opened then Run.pure l
  else
    Run.bind
      (runCmd w
        (Cmd.mk "vgchange" ["-a", "n", "vg-" ++ l.partition_label] none))
      (fun _ => Run.pure { l with opened := false })

-- ---------------------------------------------------------------------------
-- zfs.rs: filesystem model
-- ---------------------------------------------------------------------------

/-- `zfs::Config`. -/
structure zfs.Config where
  name : String
  mountpoint : String
  is_root : Bool
deriving DecidableEq, Repr

/-- `impl Validate for zfs::Config`. -/
def zfs.Config.is_valid (c : zfs.Config) : Bool :=
  !c.name.isEmpty && !c.mountpoint.isEmpty

/-- `zfs::Filesystem`. -/
structure zfs.Filesystem where
  config : NixosSetup.zfs.Config
  pool : String
  opened : Bool
  mounted : Bool
deriving DecidableEq, Repr

def zfs.Filesystem.from_config (pool : String) (config : zfs.Config) :
    zfs.Filesystem :=
  { config := config, pool := pool, opened := false, mounted := false }

def zfs.Filesystem.config' (fs : zfs.Filesystem) : Except Error zfs.Config :=
  .ok { name := fs.config.name,
        mountpoint := fs.config.mountpoint,
        is_root := fs.config.is_root }

/-- `zfs::Filesystem::create`. -/
def zfs.Filesystem.create (w : World) (fs : zfs.Filesystem) : Run Unit :=
  zfs.zfs_create w fs.pool fs.config.name

/-- `impl Mountable for zfs::Filesystem`, mount side:
`mount -t zfs <pool>/<name> <mountpoint>`. -/
def zfs.Filesystem.mount (w : World) (fs : zfs.Filesystem)
    (mountpoint : String) : Run zfs.Filesystem :=
  if fs.mounted then Run.pure fs
  else
    Run.bind
      (runCmd w
        (Cmd.mk "mount"
          ["-t", "zfs", fs.pool ++ "/" ++ fs.config.name, mountpoint] none))
      (fun _ => Run.pure { fs with mounted := true })

/-- `impl Mountable for zfs::Filesystem`, unmount side. -/
def zfs.Filesystem.unmount (w : World) (fs : zfs.Filesystem) :
    Run zfs.Filesystem :=
  if !fs.mounted then Run.pure fs
  else
    Run.bind
      (runCmd w (Cmd.mk "umount" [fs.pool ++ "/" ++ fs.config.name] none))
      (fun _ => Run.pure { fs with mounted := false })

/-- `zfs::Filesystems`. -/
structure zfs.Filesystems where
  filesystems : List NixosSetup.zfs.Filesystem
deriving DecidableEq, Repr

def zfs.Filesystems.from_config (pool : String) (configs : List zfs.Config) :
    zfs.Filesystems :=
  { filesystems := configs.map (zfs.Filesystem.from_config pool) }

def zfs.Filesystems.configList :
    List zfs.Filesystem → Except Error (List zfs.Config)
  | [] => .ok []
  | fs :: rest =>
    match fs.config' with
    | .error e => .error e
    | .ok c =>
      match zfs.Filesystems.configList rest with
      | .error e => .error e
      | .ok cs => .ok (c :: cs)

def zfs.Filesystems.config' (fss : zfs.Filesystems) :
    Except Error (List zfs.Config) :=
  zfs.Filesystems.configList fss.filesystems

/-- `impl Validate for zfs::Filesystems`. -/
def zfs.Filesystems.is_valid (fss : zfs.Filesystems) : Bool :=
  !fss.filesystems.isEmpty

def zfs.Filesystems.createList (w : World) :
    List zfs.Filesystem → Run Unit
  | [] => Run.pure ()
  | fs :: rest =>
    Run.bind (fs.create w) (fun _ => zfs.Filesystems.createList w rest)

/-- `zfs::Filesystems::create`. -/
def zfs.Filesystems.create (w : World) (fss : zfs.Filesystems) : Run Unit :=
  zfs.Filesystems.createList w fss.filesystems

-- ---------------------------------------------------------------------------
-- partition.rs
-- ---------------------------------------------------------------------------

/-- `partition::Config`. -/
structure partition.Config where
  id : Nat
  size : Bytesize
  partition_type : String
  encrypted : Bool
  fs_type : String
  label : String
  is_system : Bool
  is_root : Bool
  lvm : List NixosSetup.lvm.Config
  zfs : List NixosSetup.zfs.Config
  device : Option String
  device_name : Option String
  device_by_id : Option String
  device_by_partlabel : Option String
  luks_mapper : Option String
deriving DecidableEq, Repr

/-- `impl Validate for partition::Config`: non-zero id, parseable
partition-type and filesystem-type tags, non-empty label, checked in
source order. -/
def partition.Config.is_valid (c : partition.Config) : Bool :=
  if c.id == 0 then false
  else
    match PartitionType.from_str c.partition_type with
    | .error _ => false
    | .ok _ =>
      match FsType.from_str c.fs_type with
      | .error _ => false
      | .ok _ => if c.label.isEmpty then false else true

/-- `partition::Partition`. -/
structure Partition where
  config : NixosSetup.partition.Config
  opened : Bool
  mounted : Bool
  lvm : Lvm
  zfs : NixosSetup.zfs.Filesystems
deriving DecidableEq, Repr

def Partition.from_config (config : partition.Config) : Partition :=
  { config := config,
    opened := false,
    mounted := false,
    lvm := Lvm.from_config config.lvm config.label,
    zfs := zfs.Filesystems.from_config config.label config.zfs }

def Partition.config' (p : Partition) : Except Error partition.Config :=
  match p.lvm.config' with
  | .error e => .error e
  | .ok lvmc =>
    match p.zfs.config' with
    | .error e => .error e
    | .ok zfsc => .ok { p.config with lvm := lvmc, zfs := zfsc }

/-- `partition::Partition::luks_format`: no-op unless encrypted; otherwise
LUKS-format the by-id device (`unwrap`: panic when unresolved), add the key
file, open the mapping under the partition label. -/
def Partition.luks_format (w : World) (p : Partition)
    (passphrase key_file : String) : Run Partition :=
  if p.config.encrypted = false then Run.pure p
  else
    match p.config.device_by_id with
    | none => (Res.panic, [])
    | some device =>
      Run.bind (luks.format w device passphrase) (fun _ =>
      Run.bind (luks.add_key w device passphrase key_file) (fun _ =>
      Run.bind (luks.open' w device passphrase p.config.label) (fun _ =>
      Run.pure { p with opened := true })))

/-- The tail of `partition::Partition::format` after the format target
`device` has been selected: LVM branch or direct format, then optional ZFS
filesystems (source lines 152–171, with the chosen device as parameter). -/
def Partition.format_with (w : World) (p : Partition) (device : String) :
    Run Partition :=
  Run.bind
    (if p.lvm.is_valid then
      Run.bind (Lvm.create w p.lvm device p.config.label) (fun l =>
      Run.bind (Lvm.format_volumes w l) (fun _ => Run.pure l))
    else
      Run.bind (gpt.format_partition w device p.config.fs_type p.config.label)
        (fun _ => Run.pure p.lvm))
  (fun l =>
    Run.bind (if p.zfs.is_valid then p.zfs.create w else Run.pure ()) (fun _ =>
    Run.pure { p with lvm := l }))

/-- `partition::Partition::format`: LUKS initialisation, then select the
format target — mapper path when encrypted, by-id path otherwise (`unwrap`:
panic when the needed path is unresolved) — then the formatting tail. -/
def Partition.format (w : World) (p : Partition)
    (key_file passphrase : String) : Run Partition :=
  Run.bind (p.luks_format w passphrase key_file) (fun p =>
  Run.bind
    (match p.config.encrypted with
     | false =>
       match p.config.device_by_id with
       | none => (Res.panic, [])
       | some d => Run.pure d
     | true =>
       match p.config.luks_mapper with
       | none => (Res.panic, [])
       | some m => Run.pure m)
  (fun device => p.format_with w device))

/-- `impl Mountable for Partition`, mount side: no-op when mounted, else
`unwrap` the by-id device (panic when unresolved) and `mount`.  The
`PathBuf` mountpoint is modelled as a `String` (the `to_str` failure on
non-UTF-8 paths is not representable here). -/
def Partition.mount (w : World) (p : Partition) (mountpoint : String) :
    Run Partition :=
  if p.mounted then Run.pure p
  else
    match p.config.device_by_id with
    | none => (Res.panic, [])
    | some device =>
      Run.bind (runCmd w (Cmd.mk "mount" [device, mountpoint] none)) (fun _ =>
      Run.pure { p with mounted := true })

/-- `impl Mountable for Partition`, unmount side: no-op when not mounted,
else a graceful error (not a panic) when the by-id device is unresolved. -/
def Partition.unmount (w : World) (p : Partition) : Run Partition :=
  if !p.mounted then Run.pure p
  else
    match p.config.device_by_id with
    | none => (Res.err (Error.generic "No device for partition"), [])
    | some device =>
      Run.bind (runCmd w (Cmd.mk "umount" [device] none)) (fun _ =>
      Run.pure { p with mounted := false })

/-- `impl Openable for Partition`, open side: in-memory no-op check, then
LUKS open (if encrypted), then LVM activation (if a volume group exists). -/
def Partition.open' (w : World) (p : Partition) (passphrase : String) :
    Run Partition :=
  if p.opened then Run.pure p
  else
    Run.bind
      (if p.config.encrypted then
        match p.config.device_by_id with
        | none => (Res.panic, [])
        | some d => luks.open' w d passphrase p.config.label
      else Run.pure ())
    (fun _ =>
      Run.bind (if p.lvm.is_valid then p.lvm.open' w passphrase
                else Run.pure p.lvm)
      (fun l => Run.pure { p with opened := true, lvm := l }))

/-- `impl Openable for Partition`, close side: LVM deactivation first, then
LUKS close. -/
def Partition.close (w : World) (p : Partition) : Run Partition :=
  if !p.opened then Run.pure p
  else
    Run.bind (if p.lvm.is_valid then p.lvm.close w else Run.pure p.lvm)
    (fun l =>
      Run.bind (if p.config.encrypted then luks.close w p.config.label
                else Run.pure ())
      (fun _ => Run.pure { p with opened := false, lvm := l }))

-- ---------------------------------------------------------------------------
-- disk.rs
-- ---------------------------------------------------------------------------

/-- `disk::Config`. -/
structure disk.Config where
  device : String
  read_only : Bool
  contains_system : Bool
  partitions : List NixosSetup.partition.Config
deriving DecidableEq, Repr

/-- `impl Validate for disk::Config`: non-empty device path and every
partition configuration valid. -/
def disk.Config.is_valid (c : disk.Config) : Bool :=
  if c.device.isEmpty then false
  else c.partitions.all (fun p => p.is_valid)

/-- `disk::Disk`. -/
structure Disk where
  config : NixosSetup.disk.Config
  partitions : List Partition
deriving DecidableEq, Repr

/-- Insert a partition configuration before the first entry whose id is not
smaller, so that an element coming later in the original list lands after
the entries with equal ids that came before it. -/
def insertById (x : partition.Config) :
    List partition.Config → List partition.Config
  | [] => [x]
  | y :: ys => if y.id < x.id then y :: insertById x ys else x :: y :: ys

/-- The stable ascending sort by id that `Disk::from_config` applies to the
partition list (`sort_by_key(|k| k.id)`; Rust's `sort_by_key` is stable,
and so is this insertion sort). -/
def sortById : List partition.Config → List partition.Config
  | [] => []
  | x :: xs => insertById x (sortById xs)

def Disk.from_config (config : disk.Config) : Disk :=
  let c : disk.Config :=
    { config with partitions := sortById config.partitions }
  { config := c, partitions := c.partitions.map Partition.from_config }

def Disk.configList : List Partition → Except Error (List partition.Config)
  | [] => .ok []
  | p :: rest =>
    match p.config' with
    | .error _ => .error (Error.generic "No partition configuration")
    | .ok c =>
      match Disk.configList rest with
      | .error e => .error e
      | .ok cs => .ok (c :: cs)

def Disk.config' (d : Disk) : Except Error disk.Config :=
  match Disk.configList d.partitions with
  | .error e => .error e
  | .ok ps =>
    .ok { device := d.config.device,
          read_only := d.config.read_only,
          contains_system := d.config.contains_system,
          partitions := ps }

/-- A non-owning handle to the node a Role-Locator search returns
(`&mut dyn Mountable` in the source), identified by its value. -/
inductive Handle where
  | part : Partition → Handle
  | vol : Volume → Handle
  | fs : NixosSetup.zfs.Filesystem → Handle
deriving DecidableEq, Repr

def findRootVol : List Volume → Option Handle
  | [] => none
  | v :: rest =>
    if v.config.is_root then some (Handle.vol v) else findRootVol rest

def findRootFs : List zfs.Filesystem → Option Handle
  | [] => none
  | f :: rest =>
    if f.config.is_root then some (Handle.fs f) else findRootFs rest

def findRootNode : List Partition → Option Handle
  | [] => none
  | p :: rest =>
    if p.config.is_root then some (Handle.part p)
    else if !p.config.is_system then findRootNode rest
    else
      match findRootVol p.lvm.volumes with
      | some h => some h
      | none =>
        match findRootFs p.zfs.filesystems with
        | some h => some h
        | none => findRootNode rest

/-- `disk::Disk::find_root_partition`: first root-flagged partition, else —
for system partitions only — first root-flagged logical volume, then first
root-flagged pooled filesystem. -/
def Disk.find_root_partition (d : Disk) : Except Error Handle :=
  match findRootNode d.partitions with
  | some h => .ok h
  | none => .error (Error.generic "Root partition not found")

def findEfiVol : List Volume → Except Error (Option Handle)
  | [] => .ok none
  | v :: rest =>
    match PartitionType.from_str v.config.volume_type with
    | .error e => .error e
    | .ok .efi => .ok (some (Handle.vol v))
    | .ok .linux => findEfiVol rest

def findEfiNode : List Partition → Except Error (Option Handle)
  | [] => .ok none
  | p :: rest =>
    match PartitionType.from_str p.config.partition_type with
    | .error e => .error e
    | .ok .efi => .ok (some (Handle.part p))
    | .ok .linux =>
      if !p.config.is_system then findEfiNode rest
      else
        match findEfiVol p.lvm.volumes with
        | .error e => .error e
        | .ok (some h) => .ok (some h)
        | .ok none => findEfiNode rest

/-- `disk::Disk::find_efi_partition`: first EFI-typed partition, else — for
system partitions only — first EFI-typed logical volume; pooled filesystems
are never examined.  Type tags are parsed along the way and a parse failure
propagates. -/
def Disk.find_efi_partition (d : Disk) : Except Error Handle :=
  match findEfiNode d.partitions with
  | .error e => .error e
  | .ok (some h) => .ok h
  | .ok none => .error (Error.generic "EFI partition not found")

def Disk.openParts (w : World) (passphrase : String) :
    List Partition → Run (List Partition)
  | [] => Run.pure []
  | p :: rest =>
    Run.bind (p.open' w passphrase) (fun p' =>
    Run.bind (Disk.openParts w passphrase rest) (fun rest' =>
    Run.pure (p' :: rest')))

/-- `impl Openable for Disk`, open side: open every partition in list
order. -/
def Disk.open' (w : World) (d : Disk) (passphrase : String) : Run Disk :=
  Run.bind (Disk.openParts w passphrase d.partitions) (fun ps =>
  Run.pure { d with partitions := ps })

def Disk.closeParts (w : World) : List Partition → Run (List Partition)
  | [] => Run.pure []
  | p :: rest =>
    Run.bind (p.close w) (fun p' =>
    Run.bind (Disk.closeParts w rest) (fun rest' =>
    Run.pure (p' :: rest')))

/-- `impl Openable for Disk`, close side. -/
def Disk.close (w : World) (d : Disk) : Run Disk :=
  Run.bind (Disk.closeParts w d.partitions) (fun ps =>
  Run.pure { d with partitions := ps })

-- ---------------------------------------------------------------------------
-- filesystem.rs: whole-layout model
-- ---------------------------------------------------------------------------

/-- `filesystem::Config`. -/
structure filesystem.Config where
  disks : List NixosSetup.disk.Config
deriving DecidableEq, Repr

/-- `impl Validate for filesystem::Config`. -/
def filesystem.Config.is_valid (c : filesystem.Config) : Bool :=
  c.disks.all (fun d => d.is_valid)

/-- `filesystem::Filesystem`. -/
structure filesystem.Filesystem where
  disks : List Disk
deriving DecidableEq, Repr

def filesystem.Filesystem.from_config (config : filesystem.Config) :
    filesystem.Filesystem :=
  { disks := config.disks.map Disk.from_config }

def filesystem.diskConfigs : List Disk → Except Error (List disk.Config)
  | [] => .ok []
  | d :: rest =>
    match d.config' with
    | .error e => .error e
    | .ok c =>
      match filesystem.diskConfigs rest with
      | .error e => .error e
      | .ok cs => .ok (c :: cs)

/-- `filesystem::Filesystem::to_config`. -/
def filesystem.Filesystem.to_config (f : filesystem.Filesystem) :
    Except Error filesystem.Config :=
  match filesystem.diskConfigs f.disks with
  | .error e => .error e
  | .ok ds => .ok { disks := ds }

/-- `filesystem::Filesystem::from_json` after the file has been read and
parsed (`utils::load_json` is external file/JSON I/O; its result is the
`loaded` argument): reject an invalid configuration, otherwise build the
tree. -/
def filesystem.Filesystem.from_json (loaded : Except Error filesystem.Config) :
    Except Error filesystem.Filesystem :=
  match loaded with
  | .error e => .error e
  | .ok config =>
    if !config.is_valid then
      .error (Error.generic "Filesystem configuration is not valid")
    else .ok (filesystem.Filesystem.from_config config)

-- ---------------------------------------------------------------------------
-- Specification-side descriptions of the Role-Locator traversal
-- ---------------------------------------------------------------------------

def collectList (f : α → List β) : List α → List β
  | [] => []
  | x :: rest => f x ++ collectList f rest

/-- The root-flagged logical volumes of a list, in order, as handles. -/
def rootVolHandles (vs : List Volume) : List Handle :=
  collectList (fun v => if v.config.is_root then [Handle.vol v] else []) vs

/-- The root-flagged pooled filesystems of a list, in order, as handles. -/
def rootFsHandles (fs : List zfs.Filesystem) : List Handle :=
  collectList (fun f => if f.config.is_root then [Handle.fs f] else []) fs

/-- The root-flagged nodes of one partition that the `find_root_partition`
scan examines: the partition itself, and — only when the partition hosts
the system — its logical volumes and pooled filesystems. -/
def scanRootsOf (p : Partition) : List Handle :=
  (if p.config.is_root then [Handle.part p] else []) ++
  (if p.config.is_system then
    rootVolHandles p.lvm.volumes ++ rootFsHandles p.zfs.filesystems
  else [])

/-- All root-flagged nodes the scan examines, in traversal order. -/
def scannedRoots (d : Disk) : List Handle :=
  collectList scanRootsOf d.partitions

/-- Every root-flagged node of one partition, whether the scan examines it
or not. -/
def allRootsOf (p : Partition) : List Handle :=
  (if p.config.is_root then [Handle.part p] else []) ++
  rootVolHandles p.lvm.volumes ++ rootFsHandles p.zfs.filesystems

/-- Every root-flagged node of the disk, in traversal order. -/
def allRoots (d : Disk) : List Handle :=
  collectList allRootsOf d.partitions

theorem findRootVol_eq (vs : List Volume) :
    findRootVol vs = (rootVolHandles vs).head? := by
  induction vs with
  | nil => rfl
  | cons v rest ih =>
    by_cases h : v.config.is_root <;>
      simp [findRootVol, rootVolHandles, collectList, h] <;>
      simpa [rootVolHandles] using ih

theorem findRootFs_eq (fs : List zfs.Filesystem) :
    findRootFs fs = (rootFsHandles fs).head? := by
  induction fs with
  | nil => rfl
  | cons f rest ih =>
    by_cases h : f.config.is_root <;>
      simp [findRootFs, rootFsHandles, collectList, h] <;>
      simpa [rootFsHandles] using ih

/-- The depth-first root scan returns exactly the head of the list of
examined root-flagged nodes. -/
theorem findRootNode_eq (ps : List Partition) :
    findRootNode ps = (collectList scanRootsOf ps).head? := by
  induction ps with
  | nil => rfl
  | cons p rest ih =>
    by_cases hr : p.config.is_root
    · simp [findRootNode, collectList, scanRootsOf, hr]
    · by_cases hs : p.config.is_system
      · rw [findRootNode, findRootVol_eq, findRootFs_eq]
        cases hv : (rootVolHandles p.lvm.volumes).head? <;>
          cases hf : (rootFsHandles p.zfs.filesystems).head? <;>
          simp [collectList, scanRootsOf, hr, hs, List.head?_append,
            Option.or, ih, hv, hf]
      · rw [findRootNode]
        simp [hr, hs, collectList, scanRootsOf, ih]

theorem scannedRoots_nil_of_allRoots_nil (ps : List Partition)
    (h : collectList allRootsOf ps = []) :
    collectList scanRootsOf ps = [] := by
  induction ps with
  | nil => rfl
  | cons p rest ih =>
    simp only [collectList, List.append_eq_nil] at h ⊢
    rcases h with ⟨h1, h2⟩
    refine ⟨?_, ih h2⟩
    unfold allRootsOf at h1
    unfold scanRootsOf
    simp only [List.append_eq_nil, List.append_assoc] at h1
    rcases h1 with ⟨ha, hb, hc⟩
    simp [ha, hb, hc]

-- ---------------------------------------------------------------------------
-- Specification-side description of the EFI traversal
-- ---------------------------------------------------------------------------

/-- Whether a type tag parses to a known partition type. -/
def parsesPT (s : String) : Bool :=
  match PartitionType.from_str s with
  | .ok _ => true
  | .error _ => false

/-- Whether a type tag parses to the EFI partition type. -/
def isEfiTag (s : String) : Bool :=
  match PartitionType.from_str s with
  | .ok PartitionType.efi => true
  | _ => false

/-- The EFI-typed logical volumes of a list, in order, as handles. -/
def efiVolHandles (vs : List Volume) : List Handle :=
  collectList
    (fun v => if isEfiTag v.config.volume_type then [Handle.vol v] else [])
    vs

/-- The EFI-typed nodes of one partition that the `find_efi_partition` scan
examines: the partition itself, and — only when the partition hosts the
system — its logical volumes.  Pooled filesystems are never examined. -/
def scanEfiOf (p : Partition) : List Handle :=
  (if isEfiTag p.config.partition_type then [Handle.part p] else []) ++
  (if p.config.is_system then efiVolHandles p.lvm.volumes else [])

/-- All EFI-typed nodes the scan examines, in traversal order. -/
def scannedEfis (d : Disk) : List Handle :=
  collectList scanEfiOf d.partitions

theorem findEfiVol_eq (vs : List Volume)
    (h : vs.all (fun v => parsesPT v.config.volume_type) = true) :
    findEfiVol vs = .ok (efiVolHandles vs).head? := by
  induction vs with
  | nil => rfl
  | cons v rest ih =>
    simp only [List.all_cons, Bool.and_eq_true] at h
    obtain ⟨h1, h2⟩ := h
    unfold parsesPT at h1
    cases ht : PartitionType.from_str v.config.volume_type with
    | error e => rw [ht] at h1; simp at h1
    | ok t =>
      cases t with
      | efi => simp [findEfiVol, ht, efiVolHandles, collectList, isEfiTag]
      | linux =>
        simpa [findEfiVol, ht, efiVolHandles, collectList, isEfiTag]
          using ih h2

/-- Under parseable type tags, the depth-first EFI scan returns exactly the
head of the list of examined EFI-typed nodes. -/
theorem findEfiNode_eq (ps : List Partition)
    (hp : ps.all (fun p => parsesPT p.config.partition_type) = true)
    (hv : ps.all (fun p =>
           !p.config.is_system ||
           p.lvm.volumes.all (fun v => parsesPT v.config.volume_type))
          = true) :
    findEfiNode ps = .ok (collectList scanEfiOf ps).head? := by
  induction ps with
  | nil => rfl
  | cons p rest ih =>
    simp only [List.all_cons, Bool.and_eq_true] at hp hv
    obtain ⟨hp1, hp2⟩ := hp
    obtain ⟨hv1, hv2⟩ := hv
    unfold parsesPT at hp1
    cases ht : PartitionType.from_str p.config.partition_type with
    | error e => rw [ht] at hp1; simp at hp1
    | ok t =>
      cases t with
      | efi => simp [findEfiNode, ht, collectList, scanEfiOf, isEfiTag]
      | linux =>
        by_cases hs : p.config.is_system
        · simp only [hs, Bool.not_true, Bool.false_or] at hv1
          rw [findEfiNode, ht, findEfiVol_eq p.lvm.volumes hv1]
          cases hh : (efiVolHandles p.lvm.volumes).head? <;>
            simp [collectList, scanEfiOf, ht, hs, List.head?_append,
              Option.or, ih hp2 hv2, hh, isEfiTag]
        · simp [findEfiNode, ht, hs, collectList, scanEfiOf, ih hp2 hv2,
            isEfiTag]

-- ---------------------------------------------------------------------------
-- Concrete sample data for witnesses and counterexamples
-- ---------------------------------------------------------------------------

def szero : Bytesize := { unit := SizeUnit.byte, value := 0 }

/-- A plain valid linux/ext4 partition configuration with no nested
volumes, no pooled filesystems, and no resolved device fields. -/
def basePC : partition.Config :=
  { id := 1, size := szero, partition_type := "linux", encrypted := false,
    fs_type := "ext4", label := "rootp", is_system := false, is_root := false,
    lvm := [], zfs := [], device := none, device_name := none,
    device_by_id := none, device_by_partlabel := none, luks_mapper := none }

/-- A root-flagged logical-volume configuration. -/
def rootVC : lvm.Config :=
  { id := 1, size := szero, volume_type := "linux", encrypted := false,
    fs_type := "ext4", label := "lvroot", is_root := true, device := none }

/-- A world where every command succeeds, no LUKS mapping is active and no
pool is visible. -/
def wNone : World :=
  { luksActive := fun _ => false, poolExists := fun _ => false,
    cmdFails := fun _ => false }

-- ---------------------------------------------------------------------------
-- Claim C1
-- ---------------------------------------------------------------------------

/-- Claim C1 (amended): for every disk with exactly one root-flagged node
among those the scan examines (partitions always; logical volumes and
pooled filesystems of a partition only when that partition's `is_system`
flag is set), `find_root_partition` returns that node as a `Mountable`
handle; for every disk with zero root-flagged nodes the search fails with
`Root partition not found`; the scan stops at the first examined match. -/
theorem C1_find_root_locator (d : Disk) :
    (∀ h : Handle, scannedRoots d = [h] →
      d.find_root_partition = Except.ok h) ∧
    (allRoots d = [] →
      d.find_root_partition =
        Except.error (Error.generic "Root partition not found")) := by
  constructor
  · intro h hh
    unfold Disk.find_root_partition
    rw [findRootNode_eq]
    unfold scannedRoots at hh
    rw [hh]
    rfl
  · intro h0
    unfold Disk.find_root_partition
    rw [findRootNode_eq,
      scannedRoots_nil_of_allRoots_nil d.partitions h0]
    rfl

/-- The disk refuting C1 as stated: its only root-flagged node is a logical
volume of a partition that is not flagged as hosting the system, so the
scan never examines it. -/
def c1Disk : Disk :=
  Disk.from_config
    { device := "/dev/sda", read_only := false, contains_system := true,
      partitions := [{ basePC with lvm := [rootVC] }] }

/-- Claim C1, counterexample to the claim as stated: `c1Disk` carries
exactly one root-flagged node, yet `find_root_partition` fails with
`Root partition not found`. -/
theorem C1_counterexample :
    allRoots c1Disk = [Handle.vol (Volume.from_config rootVC)] ∧
    c1Disk.find_root_partition =
      Except.error (Error.generic "Root partition not found") := by
  constructor <;> rfl

/-- The partition configuration of the C1 witness disk: root-flagged and
system-flagged. -/
def c1RootPC : partition.Config :=
  { basePC with is_root := true, is_system := true }

/-- The C1 witness disk: exactly one examined root-flagged node. -/
def c1GoodDisk : Disk :=
  Disk.from_config
    { device := "/dev/sda", read_only := false, contains_system := true,
      partitions := [c1RootPC] }

/-- Claim C1, witness: the amended theorem applied to a concrete disk whose
single examined root-flagged node is the partition itself. -/
theorem C1_witness :
    c1GoodDisk.find_root_partition =
      Except.ok (Handle.part (Partition.from_config c1RootPC)) :=
  (C1_find_root_locator c1GoodDisk).1
    (Handle.part (Partition.from_config c1RootPC)) (by rfl)

-- ---------------------------------------------------------------------------
-- Claim C9
-- ---------------------------------------------------------------------------

/-- Claim C9 (amended): provided every partition's type tag — and, for
system partitions, every logical volume's type tag — parses to a known
partition type, a disk with no EFI-typed examined node fails with
`EFI partition not found`; when a match exists the scan returns the first
examined EFI-typed node, descending only into logical volumes of system
partitions and never into pooled filesystems.  (Unparseable tags make the
scan fail with the parse error instead — see the counterexample.) -/
theorem C9_find_efi_locator (d : Disk)
    (hp : d.partitions.all (fun p => parsesPT p.config.partition_type) = true)
    (hv : d.partitions.all (fun p =>
            !p.config.is_system ||
            p.lvm.volumes.all (fun v => parsesPT v.config.volume_type))
          = true) :
    (scannedEfis d = [] →
      d.find_efi_partition =
        Except.error (Error.generic "EFI partition not found")) ∧
    (∀ h rest, scannedEfis d = h :: rest →
      d.find_efi_partition = Except.ok h) := by
  constructor
  · intro h0
    unfold Disk.find_efi_partition
    rw [findEfiNode_eq d.partitions hp hv]
    unfold scannedEfis at h0
    rw [h0]
    rfl
  · intro h rest hh
    unfold Disk.find_efi_partition
    rw [findEfiNode_eq d.partitions hp hv]
    unfold scannedEfis at hh
    rw [hh]
    rfl

/-- The disk refuting C9 as stated: no node carries the EFI type tag, but
one partition's type tag does not parse at all. -/
def c9Disk : Disk :=
  Disk.from_config
    { device := "/dev/sda", read_only := false, contains_system := true,
      partitions := [{ basePC with partition_type := "bogus" }] }

/-- Claim C9, counterexample to the claim as stated: `c9Disk` has no
EFI-typed node, yet `find_efi_partition` fails with the parse error
`Invalid partition type`, not with `EFI partition not found`. -/
theorem C9_counterexample :
    scannedEfis c9Disk = [] ∧
    c9Disk.find_efi_partition =
      Except.error (Error.generic "Invalid partition type") := by
  constructor <;> rfl

/-- The C9 witness disk: one parseable linux partition and nothing EFI. -/
def c9NoEfiDisk : Disk :=
  Disk.from_config
    { device := "/dev/sda", read_only := false, contains_system := true,
      partitions := [basePC] }

/-- Claim C9, witness: the amended theorem applied to a concrete disk with
no EFI-typed node and parseable tags. -/
theorem C9_witness :
    c9NoEfiDisk.find_efi_partition =
      Except.error (Error.generic "EFI partition not found") :=
  (C9_find_efi_locator c9NoEfiDisk (by rfl) (by rfl)).1 (by rfl)

-- ---------------------------------------------------------------------------
-- Claim C8
-- ---------------------------------------------------------------------------

/-- Whether a filesystem-type tag parses to a known enum value. -/
def parsesFT (s : String) : Bool :=
  match FsType.from_str s with
  | .ok _ => true
  | .error _ => false

/-- Claim C8 (amended): a partition configuration is valid iff its id is
non-zero, its partition-type and filesystem-type tags parse, and its label
is non-empty; a disk configuration is valid iff its device path is
non-empty and all its partitions are valid; loading an invalid
configuration fails with the generic condition
`Filesystem configuration is not valid` (the source's wording of the
invalid-configuration condition). -/
theorem C8_validation (pc : partition.Config) (dc : disk.Config)
    (fc : filesystem.Config) :
    (pc.is_valid = true ↔
      pc.id ≠ 0 ∧ parsesPT pc.partition_type = true ∧
      parsesFT pc.fs_type = true ∧ pc.label ≠ "") ∧
    (dc.is_valid = true ↔
      dc.device ≠ "" ∧ ∀ p ∈ dc.partitions, p.is_valid = true) ∧
    (fc.is_valid = false →
      filesystem.Filesystem.from_json (Except.ok fc) =
        Except.error (Error.generic "Filesystem configuration is not valid"))
    := by
  refine ⟨?_, ?_, ?_⟩
  · by_cases h0 : pc.id = 0
    · simp [partition.Config.is_valid, h0]
    · cases hpt : PartitionType.from_str pc.partition_type with
      | error e => simp [partition.Config.is_valid, parsesPT, h0, hpt]
      | ok t =>
        cases hft : FsType.from_str pc.fs_type with
        | error e2 =>
          simp [partition.Config.is_valid, parsesPT, parsesFT, h0, hpt, hft]
        | ok t2 =>
          by_cases hl : pc.label = ""
          · simp [partition.Config.is_valid, parsesPT, parsesFT, h0, hpt,
              hft, hl, String.isEmpty_iff]
          · simp [partition.Config.is_valid, parsesPT, parsesFT, h0, hpt,
              hft, hl, String.isEmpty_iff]
  · by_cases hd : dc.device = ""
    · simp [disk.Config.is_valid, hd, String.isEmpty_iff]
    · simp [disk.Config.is_valid, hd, String.isEmpty_iff, List.all_eq_true]
  · intro hfc
    simp [filesystem.Filesystem.from_json, hfc]

/-- An invalid layout configuration: the disk's device path is empty. -/
def c8BadFC : filesystem.Config :=
  { disks := [{ device := "", read_only := false, contains_system := false,
                partitions := [] }] }

/-- Claim C8, counterexample to the claim as stated: loading an invalid
configuration fails, but with the generic description
`Filesystem configuration is not valid`, not `Invalid configuration`. -/
theorem C8_counterexample :
    c8BadFC.is_valid = false ∧
    filesystem.Filesystem.from_json (Except.ok c8BadFC) =
      Except.error (Error.generic "Filesystem configuration is not valid") ∧
    filesystem.Filesystem.from_json (Except.ok c8BadFC) ≠
      Except.error (Error.generic "Invalid configuration") := by
  refine ⟨by rfl, by rfl, ?_⟩
  intro h
  rw [show filesystem.Filesystem.from_json (Except.ok c8BadFC) =
      Except.error (Error.generic "Filesystem configuration is not valid")
    from rfl] at h
  simp at h

/-- Another invalid layout configuration: a partition with id 0. -/
def c8BadFC2 : filesystem.Config :=
  { disks := [{ device := "/dev/sda", read_only := false,
                contains_system := true,
                partitions := [{ basePC with id := 0 }] }] }

/-- Claim C8, witness: the amended theorem applied to a concrete invalid
configuration. -/
theorem C8_witness :
    filesystem.Filesystem.from_json (Except.ok c8BadFC2) =
      Except.error (Error.generic "Filesystem configuration is not valid") :=
  (C8_validation basePC
    { device := "/dev/sda", read_only := false, contains_system := true,
      partitions := [] }
    c8BadFC2).2.2 (by rfl)

-- ---------------------------------------------------------------------------
-- Claim C7
-- ---------------------------------------------------------------------------

theorem insertById_of_le (x : partition.Config) (ys : List partition.Config)
    (h : ∀ y ∈ ys, x.id ≤ y.id) : insertById x ys = x :: ys := by
  cases ys with
  | nil => rfl
  | cons y ys =>
    have hy := h y (List.mem_cons_self y ys)
    simp [insertById, Nat.not_lt.mpr hy]

theorem sortById_of_sorted (ps : List partition.Config)
    (h : ps.Pairwise (fun a b => a.id ≤ b.id)) : sortById ps = ps := by
  induction ps with
  | nil => rfl
  | cons x xs ih =>
    rw [List.pairwise_cons] at h
    rw [sortById, ih h.2, insertById_of_le x xs h.1]

theorem lvm_configList_roundtrip (cs : List lvm.Config) :
    Lvm.configList (cs.map Volume.from_config) = .ok cs := by
  induction cs with
  | nil => rfl
  | cons c rest ih =>
    simp [Lvm.configList, Volume.from_config, Volume.config', ih]

theorem zfs_configList_roundtrip (pool : String) (cs : List zfs.Config) :
    zfs.Filesystems.configList (cs.map (zfs.Filesystem.from_config pool)) =
      .ok cs := by
  induction cs with
  | nil => rfl
  | cons c rest ih =>
    simp [zfs.Filesystems.configList, zfs.Filesystem.from_config,
      zfs.Filesystem.config', ih]

theorem partition_config_roundtrip (c : partition.Config) :
    Partition.config' (Partition.from_config c) = .ok c := by
  unfold Partition.config' Partition.from_config
  simp [Lvm.config', Lvm.from_config, lvm_configList_roundtrip,
    zfs.Filesystems.config', zfs.Filesystems.from_config,
    zfs_configList_roundtrip]

theorem disk_configList_roundtrip (ps : List partition.Config) :
    Disk.configList (ps.map Partition.from_config) = .ok ps := by
  induction ps with
  | nil => rfl
  | cons p rest ih =>
    simp [Disk.configList, partition_config_roundtrip, ih]

theorem disk_config_roundtrip (c : disk.Config) :
    Disk.config' (Disk.from_config c) =
      .ok { c with partitions := sortById c.partitions } := by
  unfold Disk.config' Disk.from_config
  simp [disk_configList_roundtrip]

theorem diskConfigs_roundtrip (cs : List disk.Config) :
    filesystem.diskConfigs (cs.map Disk.from_config) =
      .ok (cs.map (fun d => { d with partitions := sortById d.partitions }))
    := by
  induction cs with
  | nil => rfl
  | cons c rest ih =>
    simp [filesystem.diskConfigs, disk_config_roundtrip, ih]

/-- A layout configuration with each disk's partition list stably sorted
by ascending id (what tree construction does to the configuration). -/
def sortDisks (c : filesystem.Config) : filesystem.Config :=
  { disks :=
      c.disks.map (fun d => { d with partitions := sortById d.partitions }) }

/-- Claim C7 (amended): constructing the tree stably sorts each disk's
partition list by ascending id; serializing the tree back yields the
original configuration with each disk's partitions so sorted — including
all resolved fields — and is field-for-field identical to the original
exactly when each disk's partition list was already in ascending id
order. -/
theorem C7_roundtrip (c : filesystem.Config) :
    (filesystem.Filesystem.to_config (filesystem.Filesystem.from_config c) =
      Except.ok (sortDisks c)) ∧
    ((∀ d ∈ c.disks, d.partitions.Pairwise (fun a b => a.id ≤ b.id)) →
      filesystem.Filesystem.to_config (filesystem.Filesystem.from_config c) =
        Except.ok c) := by
  constructor
  · unfold filesystem.Filesystem.to_config filesystem.Filesystem.from_config
    simp [diskConfigs_roundtrip, sortDisks]
  · intro hs
    unfold filesystem.Filesystem.to_config filesystem.Filesystem.from_config
    simp only [diskConfigs_roundtrip]
    have hmap :
        c.disks.map (fun d => { d with partitions := sortById d.partitions })
          = c.disks := by
      have h1 := List.map_congr_left
        (l := c.disks)
        (f := fun d => { d with partitions := sortById d.partitions })
        (g := id)
        (fun d hd => by
          show ({ d with partitions := sortById d.partitions } : disk.Config)
            = id d
          rw [sortById_of_sorted d.partitions (hs d hd)]
          rfl)
      rw [h1, List.map_id]
    rw [hmap]

/-- A two-partition disk whose configuration lists the partitions in
descending id order, refuting the exact round-trip of C7 as stated. -/
def c7C : filesystem.Config :=
  { disks := [{ device := "/dev/sda", read_only := false,
                contains_system := true,
                partitions := [{ basePC with id := 2, label := "b" },
                               { basePC with id := 1, label := "a" }] }] }

/-- The same disk with the partitions in ascending id order. -/
def c7CSorted : filesystem.Config :=
  { disks := [{ device := "/dev/sda", read_only := false,
                contains_system := true,
                partitions := [{ basePC with id := 1, label := "a" },
                               { basePC with id := 2, label := "b" }] }] }

/-- Claim C7, counterexample to the claim as stated: the round trip returns
the partitions sorted by id, not in their original order. -/
theorem C7_counterexample :
    filesystem.Filesystem.to_config (filesystem.Filesystem.from_config c7C) =
      Except.ok c7CSorted ∧
    filesystem.Filesystem.to_config (filesystem.Filesystem.from_config c7C) ≠
      Except.ok c7C := by
  refine ⟨by rfl, ?_⟩
  intro h
  rw [show filesystem.Filesystem.to_config
        (filesystem.Filesystem.from_config c7C) = Except.ok c7CSorted
    from rfl] at h
  simp [c7C, c7CSorted, basePC] at h

/-- A configuration whose partitions are already in ascending id order. -/
def c7Sorted : filesystem.Config :=
  { disks := [{ device := "/dev/sda", read_only := false,
                contains_system := true,
                partitions := [{ basePC with id := 1 },
                               { basePC with id := 2 }] }] }

/-- Claim C7, witness: the amended theorem applied to an already-sorted
configuration round-trips to itself. -/
theorem C7_witness :
    filesystem.Filesystem.to_config
      (filesystem.Filesystem.from_config c7Sorted) = Except.ok c7Sorted :=
  (C7_roundtrip c7Sorted).2 (by
    intro d hd
    simp [c7Sorted] at hd
    subst hd
    simp [List.pairwise_cons, basePC])

-- ---------------------------------------------------------------------------
-- Claim C10
-- ---------------------------------------------------------------------------

/-- Claim C10: for every freshly constructed partition whose stable by-id
path is unresolved, `mount` panics (an `unwrap` on an absent value) and
issues nothing, while `unmount` returns success without any external
invocation because the not-mounted no-op check fires first. -/
theorem C10_mount_panics (w : World) (c : partition.Config) (mp : String)
    (h : c.device_by_id = none) :
    Partition.mount w (Partition.from_config c) mp = (Res.panic, []) ∧
    Partition.unmount w (Partition.from_config c) =
      (Res.ok (Partition.from_config c), []) := by
  unfold Partition.mount Partition.unmount Partition.from_config
  simp [h, Run.pure]

/-- Claim C10, witness: the theorem applied to a concrete unresolved
partition. -/
theorem C10_witness :
    Partition.mount wNone (Partition.from_config basePC) "/mnt" =
      (Res.panic, []) ∧
    Partition.unmount wNone (Partition.from_config basePC) =
      (Res.ok (Partition.from_config basePC), []) :=
  C10_mount_panics wNone basePC "/mnt" (by rfl)

-- ---------------------------------------------------------------------------
-- Ordering of external invocations in a trace
-- ---------------------------------------------------------------------------

/-- `cryptsetup luksOpen …`. -/
def isLuksOpenCmd (c : Cmd) : Bool :=
  c.name == "cryptsetup" && c.args.head? == some "luksOpen"

/-- `cryptsetup luksClose …`. -/
def isLuksCloseCmd (c : Cmd) : Bool :=
  c.name == "cryptsetup" && c.args.head? == some "luksClose"

/-- `vgchange -a y …` (volume-group activation). -/
def isVgActivateCmd (c : Cmd) : Bool :=
  c.name == "vgchange" && c.args.take 2 == ["-a", "y"]

/-- `vgchange -a n …` (volume-group deactivation). -/
def isVgDeactivateCmd (c : Cmd) : Bool :=
  c.name == "vgchange" && c.args.take 2 == ["-a", "n"]

/-- Every invocation satisfying `p` occurs strictly before every invocation
satisfying `q` in the trace `t`. -/
def cmdBefore (p q : Cmd → Bool) (t : List Cmd) : Prop :=
  ∀ i j, (hi : i < t.length) → (hj : j < t.length) →
    p (t.get ⟨i, hi⟩) = true → q (t.get ⟨j, hj⟩) = true → i < j

theorem cmdBefore_nil (p q : Cmd → Bool) : cmdBefore p q [] := by
  intro i j hi
  exact absurd hi (Nat.not_lt_zero i)

/-- If nothing in the first part satisfies `q` and nothing in the second
part satisfies `p`, then every `p` strictly precedes every `q`. -/
theorem cmdBefore_append (p q : Cmd → Bool) (t₁ t₂ : List Cmd)
    (h₁ : ∀ c ∈ t₁, q c = false) (h₂ : ∀ c ∈ t₂, p c = false) :
    cmdBefore p q (t₁ ++ t₂) := by
  intro i j hi hj hp hq
  rw [List.get_eq_getElem] at hp hq
  rcases Nat.lt_or_ge i t₁.length with hil | hig
  · rcases Nat.lt_or_ge j t₁.length with hjl | hjg
    · exfalso
      rw [List.getElem_append_left hjl] at hq
      have hf := h₁ (t₁.get ⟨j, hjl⟩) (List.get_mem t₁ j hjl)
      rw [List.get_eq_getElem] at hf
      rw [hf] at hq
      exact Bool.false_ne_true hq
    · exact Nat.lt_of_lt_of_le hil hjg
  · exfalso
    have hi2 : i - t₁.length < t₂.length := by
      have := List.length_append t₁ t₂ ▸ hi
      omega
    rw [List.getElem_append_right hig] at hp
    have hf := h₂ (t₂.get ⟨i - t₁.length, hi2⟩)
      (List.get_mem t₂ (i - t₁.length) hi2)
    rw [List.get_eq_getElem] at hf
    rw [hf] at hp
    exact Bool.false_ne_true hp

-- ---------------------------------------------------------------------------
-- Trace shapes of the open/close operations
-- ---------------------------------------------------------------------------

/-- The trace of a sequenced computation: the first trace, extended by the
continuation's trace when the first part succeeded. -/
theorem Run.bind_trace_eq (x : Run α) (f : α → Run β) :
    (Run.bind x f).2 = x.2 ++
      (match x.1 with
       | Res.ok a => (f a).2
       | Res.err _ => []
       | Res.panic => []) := by
  cases x with
  | mk r t =>
    cases r with
    | ok a =>
      cases h : f a with
      | mk r2 t2 => simp [Run.bind, Run.trace, h]
    | err e => simp [Run.bind, Run.trace]
    | panic => simp [Run.bind, Run.trace]

/-- The trace of `luks::open`: the status query, then `luksOpen` exactly
when the mapping is not active. -/
theorem luks_open_trace (w : World) (device passphrase label : String) :
    (luks.open' w device passphrase label).trace =
      Cmd.mk "cryptsetup" ["status", "/dev/mapper/" ++ label] none ::
      (if w.luksActive label then []
       else [Cmd.mk "cryptsetup" ["luksOpen", device, label, "-"]
              (some passphrase)]) := by
  unfold luks.open' luks.is_opened
  by_cases h : w.luksActive label <;>
    simp [Run.bind_trace_eq, h, Run.pure, Run.trace, runCmd]

/-- The trace of `Lvm::open`: nothing when already opened, one `vgchange`
activation otherwise. -/
theorem lvm_open_trace (w : World) (l : Lvm) (passphrase : String) :
    (l.open' w passphrase).trace =
      if l.opened then []
      else [Cmd.mk "vgchange" ["-a", "y", "vg-" ++ l.partition_label] none]
    := by
  unfold Lvm.open'
  by_cases h : l.opened
  · simp [h, Run.pure, Run.trace]
  · simp only [h, Bool.false_eq_true, if_false, Run.bind_trace_eq, runCmd,
      Run.trace, Run.pure]
    split <;> simp

/-- The trace of `Lvm::close`. -/
theorem lvm_close_trace (w : World) (l : Lvm) :
    (l.close w).trace =
      if l.opened then
        [Cmd.mk "vgchange" ["-a", "n", "vg-" ++ l.partition_label] none]
      else [] := by
  unfold Lvm.close
  by_cases h : l.opened
  · simp only [h, Bool.not_true, Bool.false_eq_true, if_false,
      Run.bind_trace_eq, runCmd, Run.trace, Run.pure, if_true]
    split <;> simp
  · simp [h, Run.pure, Run.trace]

/-- Shape of the trace of `Partition::open` on a not-yet-opened encrypted
partition with a resolved by-id path: the `luks::open` trace (status query,
then conditionally `luksOpen`), followed by either nothing (when `luksOpen`
failed or no group is activated) or the single `vgchange` activation. -/
theorem partition_open_trace_shape (w : World) (p : Partition)
    (passphrase d : String) (hop : p.opened = false)
    (henc : p.config.encrypted = true)
    (hd : p.config.device_by_id = some d) :
    ∃ t₂, (Partition.open' w p passphrase).trace =
        (luks.open' w d passphrase p.config.label).trace ++ t₂ ∧
      (t₂ = [] ∨
       t₂ = [Cmd.mk "vgchange"
              ["-a", "y", "vg-" ++ p.lvm.partition_label] none]) := by
  unfold Partition.open'
  rw [hop, henc, hd]
  simp only [Bool.false_eq_true, if_false, if_true]
  cases hlo : luks.open' w d passphrase p.config.label with
  | mk r t =>
    cases r with
    | ok a =>
      by_cases hv : p.lvm.is_valid
      · refine ⟨(p.lvm.open' w passphrase).trace, ?_, ?_⟩
        · cases hl : p.lvm.open' w passphrase with
          | mk rl tl =>
            cases rl <;>
              simp [Run.bind, Run.pure, Run.trace, hv, hl, hlo]
        · rw [lvm_open_trace]
          by_cases ho : p.lvm.opened <;> simp [ho]
      · refine ⟨[], ?_, Or.inl rfl⟩
        simp [Run.bind, Run.pure, Run.trace, hv, hlo]
    | err e => exact ⟨[], by simp [Run.bind, Run.trace, hlo], Or.inl rfl⟩
    | panic => exact ⟨[], by simp [Run.bind, Run.trace, hlo], Or.inl rfl⟩

/-- The trace of a command followed by a traceless continuation is just
that command. -/
theorem Run.trace_bind_runCmd_pure (w : World) (c : Cmd) (f : Unit → Run β)
    (hf : ∀ u, (f u).2 = ([] : List Cmd)) :
    (Run.bind (runCmd w c) f).2 = [c] := by
  rw [Run.bind_trace_eq]
  unfold runCmd
  split <;> simp [hf]

/-- Shape of the trace of `Partition::close` on an opened partition:
the `Lvm::close` trace (one `vgchange` deactivation when a valid group is
open), followed by either nothing or the single `luksClose`. -/
theorem partition_close_trace_shape (w : World) (p : Partition)
    (hop : p.opened = true) :
    ∃ t₂, (Partition.close w p).2 =
        (if p.lvm.is_valid ∧ p.lvm.opened then
          [Cmd.mk "vgchange"
            ["-a", "n", "vg-" ++ p.lvm.partition_label] none]
         else []) ++ t₂ ∧
      (t₂ = [] ∨
       t₂ = [Cmd.mk "cryptsetup"
              ["luksClose", "/dev/mapper/" ++ p.config.label] none]) := by
  have hk : ∀ l : Lvm,
      (Run.bind (if p.config.encrypted then luks.close w p.config.label
                 else Run.pure ())
        (fun _ => Run.pure { p with opened := false, lvm := l })).2
      = (if p.config.encrypted then
          [Cmd.mk "cryptsetup"
            ["luksClose", "/dev/mapper/" ++ p.config.label] none]
         else []) := by
    intro l
    by_cases henc : p.config.encrypted
    · simp only [henc, if_true]
      exact Run.trace_bind_runCmd_pure w _ _ (fun u => rfl)
    · simp [henc, Run.bind, Run.pure]
  unfold Partition.close
  rw [hop]
  simp only [Bool.not_true, Bool.false_eq_true, if_false]
  by_cases hv : p.lvm.is_valid
  · simp only [hv, if_true]
    rcases hcl : Lvm.close w p.lvm with ⟨rl, tl⟩
    have htl : tl =
        (if p.lvm.opened then
          [Cmd.mk "vgchange"
            ["-a", "n", "vg-" ++ p.lvm.partition_label] none]
         else []) := by
      have hh := lvm_close_trace w p.lvm
      rw [hcl] at hh
      exact hh
    rw [Run.bind_trace_eq]
    cases rl with
    | ok l =>
      refine ⟨(if p.config.encrypted then
          [Cmd.mk "cryptsetup"
            ["luksClose", "/dev/mapper/" ++ p.config.label] none]
         else []), ?_, ?_⟩
      · simp [true_and, hk l, htl]
      · by_cases henc : p.config.encrypted <;> simp [henc]
    | err e =>
      refine ⟨[], ?_, Or.inl rfl⟩
      simp [htl]
    | panic =>
      refine ⟨[], ?_, Or.inl rfl⟩
      simp [htl]
  · refine ⟨(if p.config.encrypted then
        [Cmd.mk "cryptsetup"
          ["luksClose", "/dev/mapper/" ++ p.config.label] none]
       else []), ?_, ?_⟩
    · have hkk := hk p.lvm
      simp only [hv, if_false]
      simpa [hv] using hkk
    · by_cases henc : p.config.encrypted <;> simp [henc]

-- ---------------------------------------------------------------------------
-- Claim C2
-- ---------------------------------------------------------------------------

/-- Claim C2: for every partition that is both encrypted and carries a
non-empty volume group, every `cryptsetup luksOpen` issued by open occurs
strictly before every `vgchange -a y`, and every `vgchange -a n` issued by
close occurs strictly before every `cryptsetup luksClose`. -/
theorem C2_open_close_ordering (w : World) (p : Partition)
    (passphrase : String) (henc : p.config.encrypted = true)
    (hvg : p.lvm.volumes ≠ []) :
    cmdBefore isLuksOpenCmd isVgActivateCmd
      (Partition.open' w p passphrase).trace ∧
    cmdBefore isVgDeactivateCmd isLuksCloseCmd
      (Partition.close w p).trace := by
  constructor
  · by_cases hop : p.opened = true
    · have hnil : (Partition.open' w p passphrase).trace = [] := by
        simp [Partition.open', hop, Run.pure, Run.trace]
      rw [hnil]
      exact cmdBefore_nil _ _
    · cases hd : p.config.device_by_id with
      | none =>
        have hnil : (Partition.open' w p passphrase).trace = [] := by
          simp [Partition.open', hop, henc, hd, Run.bind, Run.trace]
        rw [hnil]
        exact cmdBefore_nil _ _
      | some d =>
        obtain ⟨t₂, ht, ht2⟩ := partition_open_trace_shape w p passphrase d
          (by simpa using hop) henc hd
        rw [ht, luks_open_trace]
        apply cmdBefore_append
        · intro c hc
          rcases List.mem_cons.mp hc with rfl | hc2
          · rfl
          · by_cases ha : w.luksActive p.config.label = true
            · simp [ha] at hc2
            · simp [ha] at hc2
              subst hc2
              rfl
        · intro c hc
          rcases ht2 with rfl | rfl
          · simp at hc
          · simp at hc
            subst hc
            rfl
  · by_cases hop : p.opened = true
    · obtain ⟨t₂, ht, ht2⟩ := partition_close_trace_shape w p hop
      have ht' : (Partition.close w p).trace =
          (if p.lvm.is_valid ∧ p.lvm.opened then
            [Cmd.mk "vgchange"
              ["-a", "n", "vg-" ++ p.lvm.partition_label] none]
           else []) ++ t₂ := ht
      rw [ht']
      apply cmdBefore_append
      · intro c hc
        by_cases hb : p.lvm.is_valid ∧ p.lvm.opened = true
        · simp only [hb, if_pos, and_true] at hc
          simp at hc
          rcases hc with ⟨rfl, -⟩
          rfl
        · simp [hb] at hc
      · intro c hc
        rcases ht2 with rfl | rfl
        · simp at hc
        · simp at hc
          subst hc
          rfl
    · have hnil : (Partition.close w p).trace = [] := by
        simp [Partition.close, hop, Run.pure, Run.trace]
      rw [hnil]
      exact cmdBefore_nil _ _

/-- The C2 witness partition: encrypted, with one logical volume. -/
def c2P : Partition :=
  Partition.from_config
    { basePC with
        encrypted := true,
        fs_type := "lvm",
        lvm := [{ rootVC with is_root := false }],
        device_by_id := some "/dev/disk/by-id/x" }

/-- Claim C2, witness: the ordering theorem applied to a concrete encrypted
partition with a volume group. -/
theorem C2_witness :
    cmdBefore isLuksOpenCmd isVgActivateCmd
      (Partition.open' wNone c2P "pw").trace ∧
    cmdBefore isVgDeactivateCmd isLuksCloseCmd
      (Partition.close wNone c2P).trace :=
  C2_open_close_ordering wNone c2P "pw" (by rfl) (by decide)

-- ---------------------------------------------------------------------------
-- Claim C5
-- ---------------------------------------------------------------------------

/-- Claim C5 (amended): whenever open is called on an encrypted partition
whose in-memory opened flag is unset — the state at every process start —
the external device-mapper status query is the first invocation issued, so
it is consulted before any `luksOpen` is issued or skipped; and `luksOpen`
is issued exactly when the query reports the mapping inactive, so the
already-open decision comes from the external status, not the in-memory
flag.  (When the in-memory flag is set, open returns without consulting
the status — see the counterexample.) -/
theorem C5_external_status_decides (w : World) (p : Partition)
    (passphrase d : String) (henc : p.config.encrypted = true)
    (hop : p.opened = false) (hd : p.config.device_by_id = some d) :
    (Partition.open' w p passphrase).trace.head? =
      some (Cmd.mk "cryptsetup"
        ["status", "/dev/mapper/" ++ p.config.label] none) ∧
    ((∃ c ∈ (Partition.open' w p passphrase).trace, isLuksOpenCmd c = true)
      ↔ w.luksActive p.config.label = false) := by
  obtain ⟨t₂, ht, ht2⟩ := partition_open_trace_shape w p passphrase d
    hop henc hd
  constructor
  · rw [ht, luks_open_trace]
    rfl
  · rw [ht, luks_open_trace]
    cases hL : w.luksActive p.config.label with
    | true =>
      simp only [hL, if_true]
      apply iff_of_false
      · rintro ⟨c, hc, hcl⟩
        rcases List.mem_append.mp hc with hc1 | hc2
        · obtain rfl := List.mem_singleton.mp hc1
          exact Bool.false_ne_true hcl
        · rcases ht2 with rfl | rfl
          · simp at hc2
          · obtain rfl := List.mem_singleton.mp hc2
            exact Bool.false_ne_true hcl
      · simp
    | false =>
      simp only [hL, Bool.false_eq_true, if_false]
      apply iff_of_true
      · exact ⟨Cmd.mk "cryptsetup" ["luksOpen", d, p.config.label, "-"]
          (some passphrase), by simp, rfl⟩
      · trivial

/-- The C5 counterexample partition: encrypted, by-id path resolved, but
with the in-memory opened flag already set. -/
def c5P : Partition :=
  { Partition.from_config
      { basePC with
          encrypted := true,
          device_by_id := some "/dev/disk/by-id/x" } with
    opened := true }

/-- Claim C5, counterexample to the claim as stated: open on an encrypted
partition whose in-memory flag is set issues no invocation at all — the
device-mapper status is never queried, yet `luksOpen` is skipped; the
skip decision came from the in-memory flag. -/
theorem C5_counterexample :
    c5P.config.encrypted = true ∧
    (Partition.open' wNone c5P "pw").trace = [] :=
  ⟨by rfl, by rfl⟩

/-- The C5 witness partition: encrypted, by-id path resolved, freshly
constructed (opened flag unset). -/
def c5Fresh : Partition :=
  Partition.from_config
    { basePC with
        encrypted := true,
        device_by_id := some "/dev/disk/by-id/x" }

/-- Claim C5, witness: the amended theorem applied to a concrete fresh
encrypted partition. -/
theorem C5_witness :
    (Partition.open' wNone c5Fresh "pw").trace.head? =
      some (Cmd.mk "cryptsetup"
        ["status", "/dev/mapper/" ++ c5Fresh.config.label] none) ∧
    ((∃ c ∈ (Partition.open' wNone c5Fresh "pw").trace,
        isLuksOpenCmd c = true)
      ↔ wNone.luksActive c5Fresh.config.label = false) :=
  C5_external_status_decides wNone c5Fresh "pw" "/dev/disk/by-id/x"
    (by rfl) (by rfl) (by rfl)

-- ---------------------------------------------------------------------------
-- Claim C6
-- ---------------------------------------------------------------------------

/-- Claim C6: `pool_create` first imports all importable pools; if a pool
of the requested name is then visible it adds the device to that pool and
issues no `zpool create`; otherwise it exports all pools and creates a
fresh pool with `ashift=12`, `compression=lz4` and no default mount
policy (`-m none`). -/
theorem C6_pool_create (w : World) (name device : String)
    (himp : w.cmdFails (Cmd.mk "zpool" ["import", "-a"] none) = false)
    (hexp : w.cmdFails (Cmd.mk "zpool" ["export", "-a"] none) = false) :
    (zfs.pool_create w name device =
      if w.poolExists name then
        Run.withTrace
          [Cmd.mk "zpool" ["import", "-a"] none,
           Cmd.mk "zpool" ["list", name] none]
          (zfs.pool_add w name device)
      else
        Run.withTrace
          [Cmd.mk "zpool" ["import", "-a"] none,
           Cmd.mk "zpool" ["list", name] none,
           Cmd.mk "zpool" ["export", "-a"] none]
          (runCmd w
            (Cmd.mk "zpool"
              ["create", "-o", "ashift=12", "-O", "compression=lz4",
               "-m", "none", name, device] none))) ∧
    (w.poolExists name = true →
      ∀ c ∈ (zfs.pool_create w name device).trace,
        (c.name == "zpool" && c.args.head? == some "create") = false) := by
  constructor
  · unfold zfs.pool_create zfs.pool_import_all zfs.pool_exists
      zfs.pool_export_all
    cases hpe : w.poolExists name with
    | true =>
      rcases hadd : zfs.pool_add w name device with ⟨ra, ta⟩
      simp [runCmd, himp, Run.bind, Run.pure, Run.withTrace, hpe, hadd]
    | false =>
      simp [runCmd, himp, hexp, Run.bind, Run.pure, Run.withTrace, hpe]
  · intro hpe c hc
    have htr : (zfs.pool_create w name device).trace =
        [Cmd.mk "zpool" ["import", "-a"] none,
         Cmd.mk "zpool" ["list", name] none,
         Cmd.mk "zpool" ["add", "-f", name, device] none] := by
      unfold zfs.pool_create zfs.pool_import_all zfs.pool_exists
        zfs.pool_add
      simp [runCmd, himp, Run.bind, Run.trace, hpe]
    rw [htr] at hc
    simp only [List.mem_cons, List.not_mem_nil, or_false] at hc
    rcases hc with rfl | rfl | rfl <;> rfl

/-- A world where every command succeeds and every pool is visible. -/
def wPool : World :=
  { luksActive := fun _ => false, poolExists := fun _ => true,
    cmdFails := fun _ => false }

/-- Claim C6, witness: the theorem applied with a visible pool — the
device is added and no `zpool create` is issued. -/
theorem C6_witness :
    (zfs.pool_create wPool "tank" "/dev/sda2" =
      Run.withTrace
        [Cmd.mk "zpool" ["import", "-a"] none,
         Cmd.mk "zpool" ["list", "tank"] none]
        (zfs.pool_add wPool "tank" "/dev/sda2")) ∧
    (∀ c ∈ (zfs.pool_create wPool "tank" "/dev/sda2").trace,
      (c.name == "zpool" && c.args.head? == some "create") = false) := by
  have h := C6_pool_create wPool "tank" "/dev/sda2" rfl rfl
  exact ⟨by simpa using h.1, h.2 rfl⟩

-- ---------------------------------------------------------------------------
-- Inversion helpers for successful computations
-- ---------------------------------------------------------------------------

/-- A successful sequencing decomposes into two successful parts. -/
theorem Run.bind_ok (x : Run α) (f : α → Run β) (b : β) (t : List Cmd)
    (h : Run.bind x f = (Res.ok b, t)) :
    ∃ a t1 t2, x = (Res.ok a, t1) ∧ f a = (Res.ok b, t2) ∧ t = t1 ++ t2 := by
  rcases x with ⟨r, t1⟩
  cases r with
  | ok a =>
    rcases hf : f a with ⟨rf, t2⟩
    have hred : Run.bind (Res.ok a, t1) f = (rf, t1 ++ t2) := by
      show (match f a with | (r, u) => ((r, t1 ++ u) : Run β))
        = ((rf, t1 ++ t2) : Run β)
      rw [hf]
    rw [hred] at h
    injection h with h1 h2
    cases rf with
    | ok b2 =>
      injection h1 with h3
      exact ⟨a, t1, t2, rfl, by rw [hf, h3], h2.symm⟩
    | err e => exact absurd h1 (by simp)
    | panic => exact absurd h1 (by simp)
  | err e =>
    unfold Run.bind at h
    injection h with h1 h2
    exact absurd h1 (by simp)
  | panic =>
    unfold Run.bind at h
    injection h with h1 h2
    exact absurd h1 (by simp)

/-- Inversion of a successful `Run.pure`. -/
theorem Run.pure_ok (a b : α) (t : List Cmd)
    (h : Run.pure a = (Res.ok b, t)) : b = a ∧ t = [] := by
  unfold Run.pure at h
  injection h with h1 h2
  injection h1 with h3
  exact ⟨h3.symm, h2.symm⟩

-- ---------------------------------------------------------------------------
-- Claim C3
-- ---------------------------------------------------------------------------

/-- Claim C3: for every encrypted partition (with its by-id path resolved
and the mapper path recorded by create as `/dev/mapper/<label>`), format
runs encryption-format, then add-key, then open (status query followed by
`luksOpen` when the mapping is inactive), and the device handed to the
filesystem/LVM formatting tail is the mapper path `/dev/mapper/<label>`;
for every non-encrypted partition the device handed to the formatting tail
is the stable by-id path. -/
theorem C3_format_sequence_and_target (w : World) (p : Partition)
    (key_file passphrase d : String)
    (hd : p.config.device_by_id = some d) :
    (p.config.encrypted = true →
     p.config.luks_mapper = some ("/dev/mapper/" ++ p.config.label) →
     w.cmdFails (Cmd.mk "cryptsetup"
       ["luksFormat", "-c", "aes-xts-plain64", "-s", "256", "-h", "sha512",
        "--type", "luks1", "-q", d, "-"] (some passphrase)) = false →
     w.cmdFails (Cmd.mk "cryptsetup" ["luksAddKey", d, key_file, "-"]
       (some passphrase)) = false →
     w.cmdFails (Cmd.mk "cryptsetup" ["luksOpen", d, p.config.label, "-"]
       (some passphrase)) = false →
     Partition.format w p key_file passphrase =
       Run.withTrace
         (Cmd.mk "cryptsetup"
           ["luksFormat", "-c", "aes-xts-plain64", "-s", "256", "-h",
            "sha512", "--type", "luks1", "-q", d, "-"] (some passphrase) ::
          Cmd.mk "cryptsetup" ["luksAddKey", d, key_file, "-"]
            (some passphrase) ::
          Cmd.mk "cryptsetup" ["status", "/dev/mapper/" ++ p.config.label]
            none ::
          (if w.luksActive p.config.label then []
           else [Cmd.mk "cryptsetup" ["luksOpen", d, p.config.label, "-"]
                  (some passphrase)]))
         (Partition.format_with w { p with opened := true }
           ("/dev/mapper/" ++ p.config.label))) ∧
    (p.config.encrypted = false →
     Partition.format w p key_file passphrase =
       Partition.format_with w p d) := by
  constructor
  · intro henc hm hf1 hf2 hf3
    have hlf : Partition.luks_format w p passphrase key_file =
        (Res.ok { p with opened := true },
         Cmd.mk "cryptsetup"
           ["luksFormat", "-c", "aes-xts-plain64", "-s", "256", "-h",
            "sha512", "--type", "luks1", "-q", d, "-"] (some passphrase) ::
         Cmd.mk "cryptsetup" ["luksAddKey", d, key_file, "-"]
           (some passphrase) ::
         Cmd.mk "cryptsetup" ["status", "/dev/mapper/" ++ p.config.label]
           none ::
         (if w.luksActive p.config.label then []
          else [Cmd.mk "cryptsetup" ["luksOpen", d, p.config.label, "-"]
                 (some passphrase)])) := by
      unfold Partition.luks_format luks.format luks.add_key luks.open'
        luks.is_opened
      rw [hd]
      cases hL : w.luksActive p.config.label <;>
        simp [henc, runCmd, hf1, hf2, hf3, Run.bind, Run.pure, hL]
    unfold Partition.format
    rw [hlf]
    rcases hfw : Partition.format_with w { p with opened := true }
        ("/dev/mapper/" ++ p.config.label) with ⟨rf, tf⟩
    simp [Run.bind, Run.pure, Run.withTrace, henc, hm, hfw]
  · intro henc
    have hlf : Partition.luks_format w p passphrase key_file =
        (Res.ok p, []) := by
      unfold Partition.luks_format
      simp [henc, Run.pure]
    unfold Partition.format
    rw [hlf]
    rcases hfw : Partition.format_with w p d with ⟨rf, tf⟩
    simp [Run.bind, Run.pure, henc, hd, hfw]

/-- The C3 witness partition: encrypted, by-id path and mapper path
resolved as create leaves them. -/
def c3P : Partition :=
  Partition.from_config
    { basePC with
        encrypted := true,
        device_by_id := some "/dev/disk/by-id/x",
        luks_mapper := some "/dev/mapper/rootp" }

/-- Claim C3, witness: the theorem applied to a concrete encrypted
partition in the all-success world. -/
theorem C3_witness :
    Partition.format wNone c3P "kf" "pw" =
      Run.withTrace
        (Cmd.mk "cryptsetup"
          ["luksFormat", "-c", "aes-xts-plain64", "-s", "256", "-h",
           "sha512", "--type", "luks1", "-q", "/dev/disk/by-id/x", "-"]
          (some "pw") ::
         Cmd.mk "cryptsetup" ["luksAddKey", "/dev/disk/by-id/x", "kf", "-"]
           (some "pw") ::
         Cmd.mk "cryptsetup" ["status", "/dev/mapper/" ++ c3P.config.label]
           none ::
         (if wNone.luksActive c3P.config.label then []
          else [Cmd.mk "cryptsetup"
                 ["luksOpen", "/dev/disk/by-id/x", c3P.config.label, "-"]
                 (some "pw")]))
        (Partition.format_with wNone { c3P with opened := true }
          ("/dev/mapper/" ++ c3P.config.label)) :=
  (C3_format_sequence_and_target wNone c3P "kf" "pw" "/dev/disk/by-id/x"
    (by rfl)).1 (by rfl) (by rfl) (by rfl) (by rfl) (by rfl)

-- ---------------------------------------------------------------------------
-- Idempotence lemmas: flag-based no-ops
-- ---------------------------------------------------------------------------

theorem partition_mount_noop (w : World) (p : Partition) (mp : String)
    (h : p.mounted = true) : Partition.mount w p mp = (Res.ok p, []) := by
  simp [Partition.mount, h, Run.pure]

theorem partition_unmount_noop (w : World) (p : Partition)
    (h : p.mounted = false) : Partition.unmount w p = (Res.ok p, []) := by
  simp [Partition.unmount, h, Run.pure]

theorem partition_open_noop (w : World) (p : Partition) (s : String)
    (h : p.opened = true) : Partition.open' w p s = (Res.ok p, []) := by
  simp [Partition.open', h, Run.pure]

theorem partition_close_noop (w : World) (p : Partition)
    (h : p.opened = false) : Partition.close w p = (Res.ok p, []) := by
  simp [Partition.close, h, Run.pure]

theorem volume_mount_noop (w : World) (v : Volume) (mp : String)
    (h : v.mounted = true) : Volume.mount w v mp = (Res.ok v, []) := by
  simp [Volume.mount, h, Run.pure]

theorem volume_unmount_noop (w : World) (v : Volume)
    (h : v.mounted = false) : Volume.unmount w v = (Res.ok v, []) := by
  simp [Volume.unmount, h, Run.pure]

theorem zfs_fs_mount_noop (w : World) (fs : zfs.Filesystem)
    (mp : String) (h : fs.mounted = true) :
    zfs.Filesystem.mount w fs mp = (Res.ok fs, []) := by
  simp [zfs.Filesystem.mount, h, Run.pure]

theorem zfs_fs_unmount_noop (w : World) (fs : zfs.Filesystem)
    (h : fs.mounted = false) :
    zfs.Filesystem.unmount w fs = (Res.ok fs, []) := by
  simp [zfs.Filesystem.unmount, h, Run.pure]

theorem lvm_open_noop (w : World) (l : Lvm) (s : String)
    (h : l.opened = true) : Lvm.open' w l s = (Res.ok l, []) := by
  simp [Lvm.open', h, Run.pure]

theorem lvm_close_noop (w : World) (l : Lvm)
    (h : l.opened = false) : Lvm.close w l = (Res.ok l, []) := by
  simp [Lvm.close, h, Run.pure]

-- ---------------------------------------------------------------------------
-- Idempotence lemmas: a successful call leaves the flag set accordingly
-- ---------------------------------------------------------------------------

theorem partition_mount_ok_mounted (w : World) (p : Partition) (mp : String)
    (p' : Partition) (t : List Cmd)
    (h : Partition.mount w p mp = (Res.ok p', t)) : p'.mounted = true := by
  unfold Partition.mount at h
  by_cases hm : p.mounted = true
  · rw [if_pos hm] at h
    obtain ⟨rfl, -⟩ := Run.pure_ok _ _ _ h
    exact hm
  · rw [if_neg hm] at h
    cases hdev : p.config.device_by_id with
    | none => simp [hdev] at h
    | some dev =>
      simp only [hdev] at h
      obtain ⟨u, t1, t2, hx, hk, rfl⟩ := Run.bind_ok _ _ _ _ h
      obtain ⟨h1, rfl⟩ := Run.pure_ok _ _ _ hk
      rw [h1]

theorem partition_unmount_ok_unmounted (w : World) (p : Partition)
    (p' : Partition) (t : List Cmd)
    (h : Partition.unmount w p = (Res.ok p', t)) : p'.mounted = false := by
  unfold Partition.unmount at h
  by_cases hm : p.mounted = true
  · rw [hm] at h
    simp only [Bool.not_true, Bool.false_eq_true, if_false] at h
    cases hdev : p.config.device_by_id with
    | none => simp [hdev] at h
    | some dev =>
      simp only [hdev] at h
      obtain ⟨u, t1, t2, hx, hk, rfl⟩ := Run.bind_ok _ _ _ _ h
      obtain ⟨h1, rfl⟩ := Run.pure_ok _ _ _ hk
      rw [h1]
  · have hm' : p.mounted = false := Bool.eq_false_iff.mpr hm
    rw [hm'] at h
    simp only [Bool.not_false, if_true] at h
    obtain ⟨rfl, -⟩ := Run.pure_ok _ _ _ h
    exact hm'

theorem partition_open_ok_opened (w : World) (p : Partition) (s : String)
    (p' : Partition) (t : List Cmd)
    (h : Partition.open' w p s = (Res.ok p', t)) : p'.opened = true := by
  unfold Partition.open' at h
  by_cases hop : p.opened = true
  · rw [if_pos hop] at h
    obtain ⟨rfl, -⟩ := Run.pure_ok _ _ _ h
    exact hop
  · rw [if_neg hop] at h
    obtain ⟨u, t1, t2, hx, hk, rfl⟩ := Run.bind_ok _ _ _ _ h
    obtain ⟨l, t3, t4, hy, hp2, rfl⟩ := Run.bind_ok _ _ _ _ hk
    obtain ⟨h1, rfl⟩ := Run.pure_ok _ _ _ hp2
    rw [h1]

theorem partition_close_ok_closed (w : World) (p : Partition)
    (p' : Partition) (t : List Cmd)
    (h : Partition.close w p = (Res.ok p', t)) : p'.opened = false := by
  unfold Partition.close at h
  by_cases hop : p.opened = true
  · rw [hop] at h
    simp only [Bool.not_true, Bool.false_eq_true, if_false] at h
    obtain ⟨l, t1, t2, hx, hk, rfl⟩ := Run.bind_ok _ _ _ _ h
    obtain ⟨u, t3, t4, hy, hp2, rfl⟩ := Run.bind_ok _ _ _ _ hk
    obtain ⟨h1, rfl⟩ := Run.pure_ok _ _ _ hp2
    rw [h1]
  · have hop' : p.opened = false := Bool.eq_false_iff.mpr hop
    rw [hop'] at h
    simp only [Bool.not_false, if_true] at h
    obtain ⟨rfl, -⟩ := Run.pure_ok _ _ _ h
    exact hop'

theorem volume_mount_ok_mounted (w : World) (v : Volume) (mp : String)
    (v' : Volume) (t : List Cmd)
    (h : Volume.mount w v mp = (Res.ok v', t)) : v'.mounted = true := by
  unfold Volume.mount at h
  by_cases hm : v.mounted = true
  · rw [if_pos hm] at h
    obtain ⟨rfl, -⟩ := Run.pure_ok _ _ _ h
    exact hm
  · rw [if_neg hm] at h
    cases hdev : v.config.device with
    | none => simp [hdev] at h
    | some dev =>
      simp only [hdev] at h
      obtain ⟨u, t1, t2, hx, hk, rfl⟩ := Run.bind_ok _ _ _ _ h
      obtain ⟨h1, rfl⟩ := Run.pure_ok _ _ _ hk
      rw [h1]

theorem volume_unmount_ok_unmounted (w : World) (v : Volume)
    (v' : Volume) (t : List Cmd)
    (h : Volume.unmount w v = (Res.ok v', t)) : v'.mounted = false := by
  unfold Volume.unmount at h
  by_cases hm : v.mounted = true
  · rw [hm] at h
    simp only [Bool.not_true, Bool.false_eq_true, if_false] at h
    cases hdev : v.config.device with
    | none => simp [hdev] at h
    | some dev =>
      simp only [hdev] at h
      obtain ⟨u, t1, t2, hx, hk, rfl⟩ := Run.bind_ok _ _ _ _ h
      obtain ⟨h1, rfl⟩ := Run.pure_ok _ _ _ hk
      rw [h1]
  · have hm' : v.mounted = false := Bool.eq_false_iff.mpr hm
    rw [hm'] at h
    simp only [Bool.not_false, if_true] at h
    obtain ⟨rfl, -⟩ := Run.pure_ok _ _ _ h
    exact hm'

theorem zfs_fs_mount_ok_mounted (w : World) (fs : zfs.Filesystem)
    (mp : String) (fs' : zfs.Filesystem) (t : List Cmd)
    (h : zfs.Filesystem.mount w fs mp = (Res.ok fs', t)) :
    fs'.mounted = true := by
  unfold zfs.Filesystem.mount at h
  by_cases hm : fs.mounted = true
  · rw [if_pos hm] at h
    obtain ⟨rfl, -⟩ := Run.pure_ok _ _ _ h
    exact hm
  · rw [if_neg hm] at h
    obtain ⟨u, t1, t2, hx, hk, rfl⟩ := Run.bind_ok _ _ _ _ h
    obtain ⟨h1, rfl⟩ := Run.pure_ok _ _ _ hk
    rw [h1]

theorem zfs_fs_unmount_ok_unmounted (w : World)
    (fs : zfs.Filesystem) (fs' : zfs.Filesystem) (t : List Cmd)
    (h : zfs.Filesystem.unmount w fs = (Res.ok fs', t)) :
    fs'.mounted = false := by
  unfold zfs.Filesystem.unmount at h
  by_cases hm : fs.mounted = true
  · rw [hm] at h
    simp only [Bool.not_true, Bool.false_eq_true, if_false] at h
    obtain ⟨u, t1, t2, hx, hk, rfl⟩ := Run.bind_ok _ _ _ _ h
    obtain ⟨h1, rfl⟩ := Run.pure_ok _ _ _ hk
    rw [h1]
  · have hm' : fs.mounted = false := Bool.eq_false_iff.mpr hm
    rw [hm'] at h
    simp only [Bool.not_false, if_true] at h
    obtain ⟨rfl, -⟩ := Run.pure_ok _ _ _ h
    exact hm'

theorem lvm_open_ok_opened (w : World) (l : Lvm) (s : String)
    (l' : Lvm) (t : List Cmd)
    (h : Lvm.open' w l s = (Res.ok l', t)) : l'.opened = true := by
  unfold Lvm.open' at h
  by_cases hop : l.opened = true
  · rw [if_pos hop] at h
    obtain ⟨rfl, -⟩ := Run.pure_ok _ _ _ h
    exact hop
  · rw [if_neg hop] at h
    obtain ⟨u, t1, t2, hx, hk, rfl⟩ := Run.bind_ok _ _ _ _ h
    obtain ⟨h1, rfl⟩ := Run.pure_ok _ _ _ hk
    rw [h1]

theorem lvm_close_ok_closed (w : World) (l : Lvm)
    (l' : Lvm) (t : List Cmd)
    (h : Lvm.close w l = (Res.ok l', t)) : l'.opened = false := by
  unfold Lvm.close at h
  by_cases hop : l.opened = true
  · rw [hop] at h
    simp only [Bool.not_true, Bool.false_eq_true, if_false] at h
    obtain ⟨u, t1, t2, hx, hk, rfl⟩ := Run.bind_ok _ _ _ _ h
    obtain ⟨h1, rfl⟩ := Run.pure_ok _ _ _ hk
    rw [h1]
  · have hop' : l.opened = false := Bool.eq_false_iff.mpr hop
    rw [hop'] at h
    simp only [Bool.not_false, if_true] at h
    obtain ⟨rfl, -⟩ := Run.pure_ok _ _ _ h
    exact hop'

-- ---------------------------------------------------------------------------
-- Idempotence lemmas at the disk level
-- ---------------------------------------------------------------------------

theorem Disk.openParts_ok_opened (w : World) (s : String)
    (ps ps' : List Partition) (t : List Cmd)
    (h : Disk.openParts w s ps = (Res.ok ps', t)) :
    ∀ q ∈ ps', q.opened = true := by
  induction ps generalizing ps' t with
  | nil =>
    obtain ⟨rfl, -⟩ := Run.pure_ok _ _ _ h
    intro q hq
    cases hq
  | cons p rest ih =>
    unfold Disk.openParts at h
    obtain ⟨p1, t1, t2, hx, hk, rfl⟩ := Run.bind_ok _ _ _ _ h
    obtain ⟨rest1, t3, t4, hy, hp2, rfl⟩ := Run.bind_ok _ _ _ _ hk
    obtain ⟨h1, rfl⟩ := Run.pure_ok _ _ _ hp2
    rw [h1]
    intro q hq
    rcases List.mem_cons.mp hq with rfl | hq2
    · exact partition_open_ok_opened w p s q t1 hx
    · exact ih rest1 t3 hy q hq2

theorem Disk.openParts_noop (w : World) (s : String) (ps : List Partition)
    (h : ∀ q ∈ ps, q.opened = true) :
    Disk.openParts w s ps = (Res.ok ps, []) := by
  induction ps with
  | nil => rfl
  | cons p rest ih =>
    unfold Disk.openParts
    rw [partition_open_noop w p s (h p (List.mem_cons_self p rest)),
      ih (fun q hq => h q (List.mem_cons_of_mem p hq))]
    rfl

theorem Disk.closeParts_ok_closed (w : World)
    (ps ps' : List Partition) (t : List Cmd)
    (h : Disk.closeParts w ps = (Res.ok ps', t)) :
    ∀ q ∈ ps', q.opened = false := by
  induction ps generalizing ps' t with
  | nil =>
    obtain ⟨rfl, -⟩ := Run.pure_ok _ _ _ h
    intro q hq
    cases hq
  | cons p rest ih =>
    unfold Disk.closeParts at h
    obtain ⟨p1, t1, t2, hx, hk, rfl⟩ := Run.bind_ok _ _ _ _ h
    obtain ⟨rest1, t3, t4, hy, hp2, rfl⟩ := Run.bind_ok _ _ _ _ hk
    obtain ⟨h1, rfl⟩ := Run.pure_ok _ _ _ hp2
    rw [h1]
    intro q hq
    rcases List.mem_cons.mp hq with rfl | hq2
    · exact partition_close_ok_closed w p q t1 hx
    · exact ih rest1 t3 hy q hq2

theorem Disk.closeParts_noop (w : World) (ps : List Partition)
    (h : ∀ q ∈ ps, q.opened = false) :
    Disk.closeParts w ps = (Res.ok ps, []) := by
  induction ps with
  | nil => rfl
  | cons p rest ih =>
    unfold Disk.closeParts
    rw [partition_close_noop w p (h p (List.mem_cons_self p rest)),
      ih (fun q hq => h q (List.mem_cons_of_mem p hq))]
    rfl

-- ---------------------------------------------------------------------------
-- Claim C4
-- ---------------------------------------------------------------------------

/-- Claim C4: on every mountable leaf (partition, logical volume, pooled
filesystem) and every openable node (partition, volume group, disk), a
second call to the same operation immediately after a successful first
call returns the same end state with an empty invocation trace: the flag
set by the first success makes the no-op check fire. -/
theorem C4_idempotent_second_call :
    (∀ (w : World) (p : Partition) (mp : String) (p' : Partition)
       (t : List Cmd), Partition.mount w p mp = (Res.ok p', t) →
       Partition.mount w p' mp = (Res.ok p', [])) ∧
    (∀ (w : World) (p : Partition) (p' : Partition) (t : List Cmd),
       Partition.unmount w p = (Res.ok p', t) →
       Partition.unmount w p' = (Res.ok p', [])) ∧
    (∀ (w : World) (p : Partition) (s : String) (p' : Partition)
       (t : List Cmd), Partition.open' w p s = (Res.ok p', t) →
       Partition.open' w p' s = (Res.ok p', [])) ∧
    (∀ (w : World) (p : Partition) (p' : Partition) (t : List Cmd),
       Partition.close w p = (Res.ok p', t) →
       Partition.close w p' = (Res.ok p', [])) ∧
    (∀ (w : World) (v : Volume) (mp : String) (v' : Volume) (t : List Cmd),
       Volume.mount w v mp = (Res.ok v', t) →
       Volume.mount w v' mp = (Res.ok v', [])) ∧
    (∀ (w : World) (v : Volume) (v' : Volume) (t : List Cmd),
       Volume.unmount w v = (Res.ok v', t) →
       Volume.unmount w v' = (Res.ok v', [])) ∧
    (∀ (w : World) (fs : zfs.Filesystem) (mp : String)
       (fs' : zfs.Filesystem) (t : List Cmd),
       zfs.Filesystem.mount w fs mp = (Res.ok fs', t) →
       zfs.Filesystem.mount w fs' mp = (Res.ok fs', [])) ∧
    (∀ (w : World) (fs : zfs.Filesystem) (fs' : zfs.Filesystem)
       (t : List Cmd), zfs.Filesystem.unmount w fs = (Res.ok fs', t) →
       zfs.Filesystem.unmount w fs' = (Res.ok fs', [])) ∧
    (∀ (w : World) (l : Lvm) (s : String) (l' : Lvm) (t : List Cmd),
       Lvm.open' w l s = (Res.ok l', t) →
       Lvm.open' w l' s = (Res.ok l', [])) ∧
    (∀ (w : World) (l : Lvm) (l' : Lvm) (t : List Cmd),
       Lvm.close w l = (Res.ok l', t) →
       Lvm.close w l' = (Res.ok l', [])) ∧
    (∀ (w : World) (d : Disk) (s : String) (d' : Disk) (t : List Cmd),
       Disk.open' w d s = (Res.ok d', t) →
       Disk.open' w d' s = (Res.ok d', [])) ∧
    (∀ (w : World) (d : Disk) (d' : Disk) (t : List Cmd),
       Disk.close w d = (Res.ok d', t) →
       Disk.close w d' = (Res.ok d', [])) := by
  refine ⟨?_, ?_, ?_, ?_, ?_, ?_, ?_, ?_, ?_, ?_, ?_, ?_⟩
  · intro w p mp p' t h
    exact partition_mount_noop w p' mp
      (partition_mount_ok_mounted w p mp p' t h)
  · intro w p p' t h
    exact partition_unmount_noop w p'
      (partition_unmount_ok_unmounted w p p' t h)
  · intro w p s p' t h
    exact partition_open_noop w p' s (partition_open_ok_opened w p s p' t h)
  · intro w p p' t h
    exact partition_close_noop w p' (partition_close_ok_closed w p p' t h)
  · intro w v mp v' t h
    exact volume_mount_noop w v' mp (volume_mount_ok_mounted w v mp v' t h)
  · intro w v v' t h
    exact volume_unmount_noop w v' (volume_unmount_ok_unmounted w v v' t h)
  · intro w fs mp fs' t h
    exact zfs_fs_mount_noop w fs' mp
      (zfs_fs_mount_ok_mounted w fs mp fs' t h)
  · intro w fs fs' t h
    exact zfs_fs_unmount_noop w fs'
      (zfs_fs_unmount_ok_unmounted w fs fs' t h)
  · intro w l s l' t h
    exact lvm_open_noop w l' s (lvm_open_ok_opened w l s l' t h)
  · intro w l l' t h
    exact lvm_close_noop w l' (lvm_close_ok_closed w l l' t h)
  · intro w d s d' t h
    unfold Disk.open' at h ⊢
    obtain ⟨ps', t1, t2, hx, hk, rfl⟩ := Run.bind_ok _ _ _ _ h
    obtain ⟨h1, rfl⟩ := Run.pure_ok _ _ _ hk
    subst h1
    rw [Disk.openParts_noop w s ps' (Disk.openParts_ok_opened w s _ ps' t1 hx)]
    rfl
  · intro w d d' t h
    unfold Disk.close at h ⊢
    obtain ⟨ps', t1, t2, hx, hk, rfl⟩ := Run.bind_ok _ _ _ _ h
    obtain ⟨h1, rfl⟩ := Run.pure_ok _ _ _ hk
    subst h1
    rw [Disk.closeParts_noop w ps' (Disk.closeParts_ok_closed w _ ps' t1 hx)]
    rfl

/-- A sample pooled-filesystem configuration. -/
def baseZC : zfs.Config :=
  { name := "sys", mountpoint := "/", is_root := false }

def c4PMounted : Partition :=
  { Partition.from_config basePC with mounted := true, opened := true }

def c4PFresh : Partition := Partition.from_config basePC

def c4VMounted : Volume := { Volume.from_config rootVC with mounted := true }

def c4VFresh : Volume := Volume.from_config rootVC

def c4FMounted : zfs.Filesystem :=
  { zfs.Filesystem.from_config "rootp" baseZC with mounted := true }

def c4FFresh : zfs.Filesystem := zfs.Filesystem.from_config "rootp" baseZC

def c4LOpened : Lvm := { Lvm.from_config [] "rootp" with opened := true }

def c4LFresh : Lvm := Lvm.from_config [] "rootp"

def c4D : Disk :=
  Disk.from_config
    { device := "/dev/sda", read_only := false, contains_system := true,
      partitions := [] }

/-- Claim C4, witness: every conjunct of the idempotence theorem applied at
a concrete node whose first call succeeded (as a no-op on the shown flag
state), showing the second call returns the same state and an empty
trace. -/
theorem C4_witness :
    Partition.mount wNone c4PMounted "/mnt" = (Res.ok c4PMounted, []) ∧
    Partition.unmount wNone c4PFresh = (Res.ok c4PFresh, []) ∧
    Partition.open' wNone c4PMounted "pw" = (Res.ok c4PMounted, []) ∧
    Partition.close wNone c4PFresh = (Res.ok c4PFresh, []) ∧
    Volume.mount wNone c4VMounted "/mnt" = (Res.ok c4VMounted, []) ∧
    Volume.unmount wNone c4VFresh = (Res.ok c4VFresh, []) ∧
    zfs.Filesystem.mount wNone c4FMounted "/mnt" = (Res.ok c4FMounted, []) ∧
    zfs.Filesystem.unmount wNone c4FFresh = (Res.ok c4FFresh, []) ∧
    Lvm.open' wNone c4LOpened "pw" = (Res.ok c4LOpened, []) ∧
    Lvm.close wNone c4LFresh = (Res.ok c4LFresh, []) ∧
    Disk.open' wNone c4D "pw" = (Res.ok c4D, []) ∧
    Disk.close wNone c4D = (Res.ok c4D, []) := by
  obtain ⟨h1, h2, h3, h4, h5, h6, h7, h8, h9, h10, h11, h12⟩ :=
    C4_idempotent_second_call
  exact ⟨h1 wNone c4PMounted "/mnt" c4PMounted [] (by rfl),
    h2 wNone c4PFresh c4PFresh [] (by rfl),
    h3 wNone c4PMounted "pw" c4PMounted [] (by rfl),
    h4 wNone c4PFresh c4PFresh [] (by rfl),
    h5 wNone c4VMounted "/mnt" c4VMounted [] (by rfl),
    h6 wNone c4VFresh c4VFresh [] (by rfl),
    h7 wNone c4FMounted "/mnt" c4FMounted [] (by rfl),
    h8 wNone c4FFresh c4FFresh [] (by rfl),
    h9 wNone c4LOpened "pw" c4LOpened [] (by rfl),
    h10 wNone c4LFresh c4LFresh [] (by rfl),
    h11 wNone c4D "pw" c4D [] (by rfl),
    h12 wNone c4D c4D [] (by rfl)⟩

end NixosSetup
